import Mathlib

/-!
Verification of the Derivatio Energy optimization core against its
specification.

The development shallowly embeds the Python sources
`app/core/cost_model.py`, `app/core/optimizer.py`,
`app/models/tariff.py` and `app/services/entsoe.py`:

* machine floats become exact rationals (`ℚ`); Python's `round(x, k)`
  (round-half-to-even on the value) becomes `round2` / `round3` below;
* `datetime` values become `DT` records carrying exactly the attributes
  the code reads (`.day` ordinal, `.hour`, `.month`, `.weekday()`);
* the unseeded `np.random.uniform` draws become explicit draw streams
  `ω : ℕ → ℚ` constrained by range predicates that mirror the
  distribution bounds of each branch;
* the external CBC LP solver becomes an input `sol : Option (ℕ → ℚ)`:
  `some x` models status `Optimal` with solution `x` (every claim that
  relies on it carries the solver contract — an optimal solution
  satisfies the LP constraints), `none` models every non-optimal
  status, upon which the code falls back to the naive schedule;
* the HTTP layer of the price service becomes an `HttpOutcome` input
  enumerating the classified upstream outcomes.
-/

/-- Round-half-to-even to an integer, the semantics of Python's
builtin `round` (`roundHalfEven (5/2) = 2`, `roundHalfEven (7/2) = 4`). -/
def roundHalfEven (q : ℚ) : ℤ :=
  let f := ⌊q⌋
  let r := q - (f : ℚ)
  if r < 1/2 then f
  else if 1/2 < r then f + 1
  else if f % 2 = 0 then f else f + 1

/-- Python `round(x, 2)` on an exact rational. -/
def round2 (q : ℚ) : ℚ := ((roundHalfEven (q * 100) : ℤ) : ℚ) / 100

/-- Python `round(x, 3)` on an exact rational. -/
def round3 (q : ℚ) : ℚ := ((roundHalfEven (q * 1000) : ℤ) : ℚ) / 1000

/-- Python `round(x, 1)` on an exact rational. -/
def round1 (q : ℚ) : ℚ := ((roundHalfEven (q * 10) : ℤ) : ℚ) / 10

theorem roundHalfEven_intCast (k : ℤ) : roundHalfEven (k : ℚ) = k := by
  unfold roundHalfEven
  simp [Int.floor_intCast]

theorem abs_roundHalfEven_sub_le (q : ℚ) :
    |((roundHalfEven q : ℤ) : ℚ) - q| ≤ 1/2 := by
  unfold roundHalfEven
  have h0 : (0:ℚ) ≤ q - (⌊q⌋ : ℚ) := by
    have := Int.floor_le q; linarith
  have h1 : q - (⌊q⌋ : ℚ) < 1 := by
    have := Int.lt_floor_add_one q; linarith
  by_cases hlt : q - (⌊q⌋ : ℚ) < 1/2
  · simp only [hlt, if_true]
    rw [abs_le]; constructor <;> linarith
  · by_cases hgt : 1/2 < q - (⌊q⌋ : ℚ)
    · simp only [hlt, if_false, hgt, if_true]
      push_cast
      rw [abs_le]; constructor <;> linarith
    · have heq : q - (⌊q⌋ : ℚ) = 1/2 := le_antisymm (not_lt.mp hgt) (not_lt.mp hlt)
      by_cases hev : ⌊q⌋ % 2 = 0
      · simp only [hlt, if_false, hgt, hev, if_true]
        rw [abs_le]; constructor <;> linarith
      · simp only [hlt, if_false, hgt, hev, if_true]
        push_cast
        rw [abs_le]; constructor <;> linarith

theorem abs_round2_sub_le (q : ℚ) : |round2 q - q| ≤ 1/200 := by
  have h := abs_roundHalfEven_sub_le (q * 100)
  unfold round2
  have : ((roundHalfEven (q * 100) : ℤ) : ℚ) / 100 - q
      = (((roundHalfEven (q * 100) : ℤ) : ℚ) - q * 100) / 100 := by ring
  rw [this, abs_div]
  have h100 : |(100:ℚ)| = 100 := by norm_num
  rw [h100]
  linarith

theorem round2_eq_div (q : ℚ) : ∃ k : ℤ, round2 q = (k : ℚ) / 100 :=
  ⟨roundHalfEven (q * 100), rfl⟩

theorem round2_zero : round2 0 = 0 := by
  unfold round2
  rw [show ((0:ℚ) * 100) = ((0:ℤ):ℚ) by norm_num, roundHalfEven_intCast]
  norm_num

/-- The attributes of a Python `datetime` that the core reads:
`dt.day`-level calendar ordinal (used only to group hours into days and
order them chronologically), `dt.hour`, `dt.month`, `dt.weekday()`
(0 = Monday … 6 = Sunday). -/
structure DT where
  day : ℤ
  hour : ℕ
  month : ℕ
  weekday : ℕ
deriving DecidableEq, Inhabited

/-- `app/models/tariff.py`, class `GridTariff`.  `peak_calc_method` is
kept as the raw string exactly as in the source (`"single"`, `"avg3"`,
`"avg5"`; anything else behaves as `"single"`). -/
structure GridTariff where
  base_monthly_fee : ℚ
  capacity_fee_kw : ℚ
  peak_fee_kw : ℚ
  peak_hours_start : ℕ
  peak_hours_end : ℕ
  peak_months : List ℕ
  peak_weekdays_only : Bool
  peak_calc_method : String
  energy_fee_peak : ℚ
  energy_fee_offpeak : ℚ
deriving DecidableEq, Inhabited

/-- `GridTariff.is_peak_hour` from `app/models/tariff.py`. -/
def GridTariff.is_peak_hour (tf : GridTariff) (dt : DT) : Bool :=
  if tf.peak_weekdays_only && decide (5 ≤ dt.weekday) then false
  else if !(tf.peak_months.contains dt.month) then false
  else decide (tf.peak_hours_start ≤ dt.hour) && decide (dt.hour < tf.peak_hours_end)

/-- Python `max(l)` for a nonempty list, `0.0` for the empty one, as
used in `calc_peak_power` (`max(all_kw) if all_kw else 0.0`). -/
def pymax (l : List ℚ) : ℚ :=
  match l with
  | [] => 0
  | x :: xs => xs.foldl max x

/-- `top_avg` from `calc_peak_power` in `app/core/cost_model.py`:
mean of the `min n (len values)` largest elements, `0.0` when empty. -/
def top_avg (values : List ℚ) (n : ℕ) : ℚ :=
  match values with
  | [] => 0
  | _ =>
    let s := (List.insertionSort (fun a b => b ≤ a) values).take (min n values.length)
    s.sum / (s.length : ℚ)

/-- `calc_peak_power` from `app/core/cost_model.py`: the pair
`(p_max_all, p_max_peak)`, each rounded to three decimals. -/
def calc_peak_power (hourly_kw : List ℚ) (tf : GridTariff) (timestamps : List DT) :
    ℚ × ℚ :=
  let peak_kw := ((hourly_kw.zip timestamps).filter
    (fun p => tf.is_peak_hour p.2)).map Prod.fst
  let all_kw := hourly_kw
  let pair :=
    if tf.peak_calc_method = "avg3" then (top_avg all_kw 3, top_avg peak_kw 3)
    else if tf.peak_calc_method = "avg5" then (top_avg all_kw 5, top_avg peak_kw 5)
    else (pymax all_kw, pymax peak_kw)
  (round3 pair.1, round3 pair.2)

/-- `calc_energy_cost` from `app/core/cost_model.py`:
`round(Σ kw·(spot/100 + fee), 2)` where the fee is the peak or
off-peak energy surcharge per `is_peak_hour`; `zip` truncates to the
shortest input exactly as in Python. -/
def calc_energy_cost (hourly_kw spot_prices : List ℚ) (tf : GridTariff)
    (timestamps : List DT) : ℚ :=
  let rows := (hourly_kw.zip spot_prices).zip timestamps
  round2 (rows.foldl
    (fun acc r =>
      let grid_fee := if tf.is_peak_hour r.2 then tf.energy_fee_peak
        else tf.energy_fee_offpeak
      acc + r.1.1 * (r.1.2 / 100 + grid_fee)) 0)

/-- The dict returned by `calc_total_cost` in `app/core/cost_model.py`. -/
structure CostResult where
  energy_cost : ℚ
  capacity_cost : ℚ
  peak_cost : ℚ
  base_fee : ℚ
  total : ℚ
  p_max_all : ℚ
  p_max_peak : ℚ
deriving DecidableEq, Inhabited

/-- `calc_total_cost` from `app/core/cost_model.py`.  Note the source:
the returned components are rounded individually, while `total` rounds
the sum of the *pre-rounding* `capacity_cost`, `peak_cost` and
`base_fee` values. -/
def calc_total_cost (hourly_kw spot_prices : List ℚ) (tf : GridTariff)
    (timestamps : List DT) (months : ℤ) : CostResult :=
  let peaks := calc_peak_power hourly_kw tf timestamps
  let energy_cost := calc_energy_cost hourly_kw spot_prices tf timestamps
  let capacity_cost := peaks.1 * tf.capacity_fee_kw
  let peak_cost := peaks.2 * tf.peak_fee_kw
  let base_fee := tf.base_monthly_fee * (months : ℚ)
  { energy_cost := round2 energy_cost
    capacity_cost := round2 capacity_cost
    peak_cost := round2 peak_cost
    base_fee := round2 base_fee
    total := round2 (energy_cost + capacity_cost + peak_cost + base_fee)
    p_max_all := peaks.1
    p_max_peak := peaks.2 }

/-! ## Price source — `app/services/entsoe.py` -/

/-- Python `str.upper()` on one ASCII character (the bidding-zone
codes are ASCII). -/
def pyUpperChar (c : Char) : Char :=
  if 'a' ≤ c ∧ c ≤ 'z' then Char.ofNat (c.toNat - 32) else c

/-- Python `str.upper()`, applied to `grid_area` before the
`AREA_CODES` lookup. -/
def pyUpper (s : String) : String := ⟨s.data.map pyUpperChar⟩

/-- `AREA_CODES` from `app/services/entsoe.py`. -/
def AREA_CODES : List (String × String) :=
  [("SE1", "10Y1001A1001A44P"),
   ("SE2", "10Y1001A1001A45N"),
   ("SE3", "10Y1001A1001A46L"),
   ("SE4", "10Y1001A1001A47J")]

/-- `EUR_SEK = 11.20` from `app/services/entsoe.py`. -/
def EUR_SEK : ℚ := 56/5

/-- `EUR_MWH_TO_ORE_KWH = EUR_SEK * 0.1` from `app/services/entsoe.py`. -/
def EUR_MWH_TO_ORE_KWH : ℚ := EUR_SEK * (1/10)

/-- `PRICE_MIN_ORE = 0.0` from `app/services/entsoe.py`. -/
def PRICE_MIN_ORE : ℚ := 0

/-- `PRICE_MAX_ORE = 800.0` from `app/services/entsoe.py`. -/
def PRICE_MAX_ORE : ℚ := 800

/-- `FALLBACK_PRICE_ORE = 120.0` from `app/services/entsoe.py`. -/
def FALLBACK_PRICE_ORE : ℚ := 120

/-- `_parse_resolution` from `app/services/entsoe.py`: resolution
string to minutes, defaulting to 60 for unknown strings. -/
def parse_resolution (resolution : String) : ℕ :=
  if resolution = "PT60M" then 60
  else if resolution = "PT15M" then 15
  else if resolution = "PT30M" then 30
  else if resolution = "PT1H" then 60
  else 60

/-- One `<Point>` of the ENTSO-E publication document, the two fields
`_parse_xml` reads (`position`, `price.amount` in EUR/MWh).  Points
whose `position` or `price.amount` elements are missing or fail to
parse are skipped by the source before any computation, so the model
carries only well-formed points. -/
structure Point where
  position : ℤ
  price_amount : ℚ
deriving DecidableEq, Inhabited

/-- One `<TimeSeries>/<Period>` as `_parse_xml` reads it:
`timeInterval/start` in minutes UTC (`none` models a missing or
unparsable interval, which the source skips), the `resolution` string,
and the list of points. -/
structure Period where
  startUtcMin : Option ℤ
  resolution : String
  points : List Point
deriving DecidableEq, Inhabited

/-- A returned price entry: local-time hour index (hours since the
epoch; the source renders it as `"%Y-%m-%dT%H:00:00"`, whose
lexicographic order coincides with this numeric order) and the price
in öre/kWh. -/
abbrev PriceEntry := ℤ × ℚ

/-- The `results` dict update of `_parse_xml`: insert a new timestamp
key at the end, or average into an existing one
(`results[ts] = (results[ts] + price) / 2`). -/
def coalesce : List PriceEntry → ℤ → ℚ → List PriceEntry
  | [], key, p => [(key, p)]
  | (k, v) :: rest, key, p =>
    if k = key then (k, (v + p) / 2) :: rest
    else (k, v) :: coalesce rest key p

/-- The per-`Period` body of `_parse_xml`'s walk: place each point at
`period_start_utc + (position−1)·resolution` minutes, shift by the
fixed +1h UTC→local offset, truncate to the hour, convert EUR/MWh to
öre/kWh, and coalesce into the running `results` dict. -/
def periodStep (acc : List PriceEntry) (period : Period) : List PriceEntry :=
  match period.startUtcMin with
  | none => acc
  | some t0 =>
    let res := (parse_resolution period.resolution : ℤ)
    period.points.foldl (fun acc2 pt =>
      let offset_minutes := (pt.position - 1) * res
      let point_time_utc := t0 + offset_minutes
      let point_time_local := point_time_utc + 60
      let ts_hour := Int.fdiv point_time_local 60
      coalesce acc2 ts_hour (pt.price_amount * EUR_MWH_TO_ORE_KWH)) acc

/-- The `results` dict of `_parse_xml` after walking every
`TimeSeries/Period`. -/
def parse_xml_results (periods : List Period) : List PriceEntry :=
  periods.foldl periodStep []

/-- `_parse_xml` from `app/services/entsoe.py`: walk every
`TimeSeries/Period` (see `periodStep`), then sort the coalesced dict
by timestamp and round prices to two decimals. -/
def parse_xml (periods : List Period) : List PriceEntry :=
  let results := parse_xml_results periods
  if results = [] then []
  else (List.insertionSort (fun a b => a.1 ≤ b.1) results).map
    (fun q => (q.1, round2 q.2))

/-- `_validate_and_clamp` from `app/services/entsoe.py`: clamp
negative prices to 0 (extreme high prices are retained), round to two
decimals. -/
def validate_and_clamp (prices : List PriceEntry) : List PriceEntry :=
  prices.map (fun entry =>
    let price := if entry.2 < 0 then 0 else entry.2
    (entry.1, round2 (max PRICE_MIN_ORE price)))

/-- `_fallback_prices` from `app/services/entsoe.py`: one entry at
`FALLBACK_PRICE_ORE` per hour from `start` 00:00 up to but excluding
`end + 1 day` 00:00. -/
def fallback_prices (startDay endDay : ℤ) : List PriceEntry :=
  (List.range (24 * (endDay + 1 - startDay)).toNat).map
    (fun (k : ℕ) => (startDay * 24 + (k : ℤ), FALLBACK_PRICE_ORE))

/-- The classified outcomes of the single HTTP GET in `_fetch_xml`:
a 2xx body (`none` models a body `ET.fromstring` rejects), 401, 400,
5xx, timeout, connection error. -/
inductive HttpOutcome
  | httpOk (doc : Option (List Period))
  | status401
  | status400
  | status5xx
  | timeout
  | connectError
deriving DecidableEq

/-- The three exception classes of `app/services/entsoe.py`:
`ENTSOEAuthError`, `ENTSOEUnavailableError`, `ENTSOEParseError`. -/
inductive FetchErr
  | auth
  | unavail
  | parse
deriving DecidableEq

/-- `_fetch_xml` from `app/services/entsoe.py`, paired with the number
of upstream HTTP calls it performs: an empty token raises
`ENTSOEAuthError` *before* any network traffic; otherwise exactly one
GET happens and its outcome is classified (401 → auth, 400/5xx/timeout/
connection error → unavailable, 2xx → the body). -/
def fetch_xml (token : String) (o : HttpOutcome) :
    Except FetchErr (Option (List Period)) × ℕ :=
  if token = "" then (Except.error FetchErr.auth, 0)
  else
    match o with
    | HttpOutcome.httpOk doc => (Except.ok doc, 1)
    | HttpOutcome.status401 => (Except.error FetchErr.auth, 1)
    | HttpOutcome.status400 => (Except.error FetchErr.unavail, 1)
    | HttpOutcome.status5xx => (Except.error FetchErr.unavail, 1)
    | HttpOutcome.timeout => (Except.error FetchErr.unavail, 1)
    | HttpOutcome.connectError => (Except.error FetchErr.unavail, 1)

/-- The in-memory `_price_cache`, keyed by `(grid_area, start, end)`. -/
abbrev PriceCache := List ((String × ℤ × ℤ) × List PriceEntry)

/-- `fetch_day_ahead_prices` from `app/services/entsoe.py`, threading
the cache explicitly and counting upstream HTTP calls.  `Except.error`
models the `ValueError` raised for an unknown bidding zone; every
classified fetch failure and the empty-parse case return the fallback
series *without* caching it; only a successful nonempty parse is
validated, cached and returned. -/
def fetch_day_ahead_prices (grid_area : String) (startDay endDay : ℤ)
    (token : String) (o : HttpOutcome) (cache : PriceCache) :
    Except String (List PriceEntry) × PriceCache × ℕ :=
  match AREA_CODES.lookup (pyUpper grid_area) with
  | none => (Except.error "Okänt elområde", cache, 0)
  | some _ =>
    let key := (grid_area, startDay, endDay)
    match cache.lookup key with
    | some cached => (Except.ok cached, cache, 0)
    | none =>
      match fetch_xml token o with
      | (Except.error _, k) => (Except.ok (fallback_prices startDay endDay), cache, k)
      | (Except.ok none, k) => (Except.ok (fallback_prices startDay endDay), cache, k)
      | (Except.ok (some periods), k) =>
        let prices := parse_xml periods
        if prices = [] then (Except.ok (fallback_prices startDay endDay), cache, k)
        else
          let validated := validate_and_clamp prices
          (Except.ok validated, (key, validated) :: cache, k)

/-! ## Optimization core — `app/core/optimizer.py` -/

/-- The `DataQuality` flags of `app/core/optimizer.py`
(`"ok"`, `"partial"`, `"fallback"`). -/
inductive DataQuality
  | ok
  | partialData
  | fallback
deriving DecidableEq, Inhabited

/-- `_typkurva_baslast` from `app/core/optimizer.py`: every hour draws
`sub_kw · U(lo, hi)`; the branch on the local hour only selects the
`(lo, hi)` bounds, which `TypkurvaDraws` records. -/
def typkurva_baslast (sub_kw : ℚ) (ω : ℕ → ℚ) : ℕ → ℚ :=
  fun i => sub_kw * ω i

/-- The ranges of the `np.random.uniform` draws of `_typkurva_baslast`:
`(0.30, 0.55)` for local hour in `[8,18)`, `(0.12, 0.28)` for
`[6,8) ∪ [18,22)`, `(0.04, 0.12)` otherwise. -/
def TypkurvaDraws (ω : ℕ → ℚ) (n : ℕ) : Prop :=
  ∀ i, i < n →
    (if 8 ≤ i % 24 ∧ i % 24 < 18 then 30/100 ≤ ω i ∧ ω i ≤ 55/100
     else if (6 ≤ i % 24 ∧ i % 24 < 8) ∨ (18 ≤ i % 24 ∧ i % 24 < 22) then
       12/100 ≤ ω i ∧ ω i ≤ 28/100
     else 4/100 ≤ ω i ∧ ω i ≤ 12/100)

/-- `_syntetiska_spotpriser` from `app/core/optimizer.py`: base 120
öre/kWh; morning/evening peak hours add `U(30, 80)`; hours `0..4` add
`U(-20, 10)` clamped at 0; all other hours add `U(0, 40)`.  `ω i` is
the hour-`i` uniform draw, constrained by `SpotprisDraws`. -/
def syntetiska_spotpriser (ω : ℕ → ℚ) (i : ℕ) : ℚ :=
  let base : ℚ := 120
  let h := i % 24
  if h = 7 ∨ h = 8 ∨ h = 9 ∨ h = 17 ∨ h = 18 ∨ h = 19 ∨ h = 20 then base + ω i
  else if h ≤ 4 then max 0 (base + ω i)
  else base + ω i

/-- The ranges of the `np.random.uniform` draws of
`_syntetiska_spotpriser` (note the source draws `U(-20, 10)` for the
night hours `0..4`). -/
def SpotprisDraws (ω : ℕ → ℚ) (n : ℕ) : Prop :=
  ∀ i, i < n →
    (if i % 24 = 7 ∨ i % 24 = 8 ∨ i % 24 = 9 ∨ i % 24 = 17 ∨ i % 24 = 18
        ∨ i % 24 = 19 ∨ i % 24 = 20 then 30 ≤ ω i ∧ ω i ≤ 80
     else if i % 24 ≤ 4 then -20 ≤ ω i ∧ ω i ≤ 10
     else 0 ≤ ω i ∧ ω i ≤ 40)

/-- The wrap-aware charging-window test on a local hour, exactly the
branch both schedulers apply to `dt.hour`: when `arrival > departure`
the window wraps midnight (`h ≥ arrival or h < departure`), otherwise
it is `arrival ≤ h < departure`. -/
def inChargeWindow (arrival departure h : ℕ) : Bool :=
  if arrival > departure then decide (h ≥ arrival) || decide (h < departure)
  else decide (arrival ≤ h) && decide (h < departure)

/-- Whether index `t` of the timestamp grid lies in the charging
window (`in_window[t]` of `_lp_ev_schedule`, and the membership test of
the `window` list of `_naive_ev_schedule`). -/
def inWindowAt (arrival departure : ℕ) (ts : List DT) (t : ℕ) : Bool :=
  inChargeWindow arrival departure (ts.getD t default).hour

/-- The `window` index list of `_naive_ev_schedule`. -/
def naive_window (arrival departure : ℕ) (ts : List DT) : List ℕ :=
  (List.range ts.length).filter (fun i => inWindowAt arrival departure ts i)

/-- The greedy assignment loop of `_naive_ev_schedule`: walk the
(price-sorted) window, charge `min(fleet_kw, remaining)` per hour and
stop once `remaining ≤ 0`. -/
def naiveAssign (fleet_kw : ℚ) : List ℕ → ℚ → List (ℕ × ℚ)
  | [], _ => []
  | i :: rest, remaining =>
    if remaining ≤ 0 then []
    else
      let charge := min fleet_kw remaining
      (i, charge) :: naiveAssign fleet_kw rest (remaining - charge)

/-- `_naive_ev_schedule` from `app/core/optimizer.py`: charge in the
cheapest spot-price hours of the wrap-aware window (Python's stable
`sorted` by price becomes the stable insertion sort); indices that
receive no assignment stay at 0, as in `np.zeros(n)`. -/
def naive_ev_schedule (n : ℕ) (fleet_kw kwh_needed : ℚ)
    (arrival departure : ℕ) (spot : ℕ → ℚ) (ts : List DT) : ℕ → ℚ :=
  let window := naive_window arrival departure ts
  let sortedWindow := List.insertionSort (fun i j => spot i ≤ spot j) window
  let assign := naiveAssign fleet_kw sortedWindow kwh_needed
  fun i => (assign.lookup i).getD 0

/-- The feasible set of the LP posed by `_lp_ev_schedule` (projected
onto the `x` variables; the auxiliary peak variables `M`, `P` are
unbounded above, so any `x` satisfying these constraints extends to a
full feasible point): bounds `0 ≤ x[t] ≤ fleet_kw`, `x[t] = 0` outside
the charging window, the energy budget `Σ x ≥ kwh_needed`, and the
effective subscription ceiling `base_load[t] + x[t] ≤ S_eff`. -/
def LPFeasible (n : ℕ) (base_load : ℕ → ℚ) (fleet_kw kwh_needed : ℚ)
    (arrival departure : ℕ) (S_eff : ℚ) (ts : List DT) (x : ℕ → ℚ) : Prop :=
  (∀ t, t < n → 0 ≤ x t ∧ x t ≤ fleet_kw) ∧
  (∀ t, t < n → inWindowAt arrival departure ts t = false → x t = 0) ∧
  kwh_needed ≤ (Finset.range n).sum x ∧
  (∀ t, t < n → base_load t + x t ≤ S_eff)

/-- `_lp_ev_schedule` from `app/core/optimizer.py`.  The CBC solver is
external; its answer enters as `sol`: `some x` models status
`Optimal` with solution values `x` (the solver contract, carried as a
hypothesis by the theorems, says such an `x` lies in `LPFeasible` for
`S_eff = subscription_kw · (1 − safety_margin)`), and `none` models
every non-`Optimal` status, upon which the source returns the naive
schedule — the explicit fallback rung. -/
def lp_ev_schedule (sol : Option (ℕ → ℚ)) (n : ℕ) (base_load : ℕ → ℚ)
    (fleet_kw kwh_needed : ℚ) (arrival departure : ℕ) (spot : ℕ → ℚ)
    (tf : GridTariff) (subscription_kw : ℚ) (ts : List DT)
    (safety_margin : ℚ) : ℕ → ℚ :=
  match sol with
  | some x => x
  | none => naive_ev_schedule n fleet_kw kwh_needed arrival departure spot ts

/-- The Monte-Carlo statistics block (`_monte_carlo_savings`).  The
harness re-runs both schedulers 200 times under unseeded random
jitter and 200 further external solver calls; no claim constrains its
output, so the block is threaded through `run_simulation` as an
opaque input. -/
structure MCStats where
  mean : ℚ
  median : ℚ
  p10 : ℚ
  p90 : ℚ
  std : ℚ
  n_simulations : ℕ
deriving DecidableEq, Inhabited

/-- The fleet record of the simulation request
(`app/models/simulation.py`). -/
structure Fleet where
  vehicle_count : ℕ
  charger_kw : ℚ
  battery_kwh : ℚ
  avg_soc_on_arrival : ℚ
  avg_arrival_hour : ℕ
  avg_departure_hour : ℕ
deriving DecidableEq, Inhabited

/-- The simulation request as `run_simulation` reads it.
`period_start`/`period_end` are calendar-day ordinals;  `timestamps`
is the hourly grid `pd.date_range(period_start, period_end, freq="h")`
(both endpoints at midnight, inclusive), carried as the attribute
records the core reads.  `subscription_kw` and `grid_area` are the
property fields; the optional series model the union-typed request
fields (`none` = absent). -/
structure SimulationInput where
  period_start : ℤ
  period_end : ℤ
  timestamps : List DT
  subscription_kw : ℚ
  grid_area : String
  fleet : Fleet
  tariff : GridTariff
  base_load_profile : Option (List ℚ)
  spot_prices : Option (List ℚ)

/-- Python truthiness-plus-length test applied to both optional
series: `inp.base_load_profile and len(inp.base_load_profile) == n`
(`None` and `[]` are falsy). -/
def real_series (opt : Option (List ℚ)) (n : ℕ) : Bool :=
  match opt with
  | some l => !l.isEmpty && l.length == n
  | none => false

/-- Step 1 of `run_simulation`: the measured baseload when it is
supplied with the right length, else the synthetic office curve. -/
def sim_base_load (inp : SimulationInput) (ωbase : ℕ → ℚ) : ℕ → ℚ :=
  if real_series inp.base_load_profile inp.timestamps.length then
    fun i => (inp.base_load_profile.getD []).getD i 0
  else typkurva_baslast inp.subscription_kw ωbase

/-- Step 2 of `run_simulation`: the supplied spot prices when present
with the right length, else the synthetic prices. -/
def sim_spot (inp : SimulationInput) (ωspot : ℕ → ℚ) : ℕ → ℚ :=
  if real_series inp.spot_prices inp.timestamps.length then
    fun i => (inp.spot_prices.getD []).getD i 0
  else fun i => syntetiska_spotpriser ωspot i

/-- Step 3 of `run_simulation`: the data-quality flag and safety
margin (`ok`/0.00 when both series are real, `partial`/0.05 when
exactly one is, `fallback`/0.10 when neither is). -/
def sim_quality (inp : SimulationInput) : DataQuality × ℚ :=
  let s := real_series inp.spot_prices inp.timestamps.length
  let b := real_series inp.base_load_profile inp.timestamps.length
  if s && b then (DataQuality.ok, 0)
  else if s || b then (DataQuality.partialData, 5/100)
  else (DataQuality.fallback, 10/100)

/-- Step 4 of `run_simulation`:
`kwh_needed = vehicle_count · battery_kwh · (1 − avg_soc_on_arrival)`. -/
def sim_kwh_needed (inp : SimulationInput) : ℚ :=
  (inp.fleet.vehicle_count : ℚ) * inp.fleet.battery_kwh *
    (1 - inp.fleet.avg_soc_on_arrival)

/-- Step 4 of `run_simulation`:
`fleet_kw = vehicle_count · charger_kw`. -/
def sim_fleet_kw (inp : SimulationInput) : ℚ :=
  (inp.fleet.vehicle_count : ℚ) * inp.fleet.charger_kw

/-- The CBC solver contract for the primary LP of a run: whenever the
status is `Optimal` (`sol = some x`), the reported solution satisfies
the constraints `_lp_ev_schedule` posed, with
`S_eff = subscription_kw · (1 − safety_margin)` for the margin the
data-quality ladder selected. -/
def SolverContract (inp : SimulationInput) (ωbase : ℕ → ℚ)
    (sol : Option (ℕ → ℚ)) : Prop :=
  ∀ x, sol = some x →
    LPFeasible inp.timestamps.length (sim_base_load inp ωbase)
      (sim_fleet_kw inp) (sim_kwh_needed inp)
      inp.fleet.avg_arrival_hour inp.fleet.avg_departure_hour
      (inp.subscription_kw * (1 - (sim_quality inp).2)) inp.timestamps x

/-- One row of `hourly_data` (`HourlyResult` of
`app/models/simulation.py`): every kW and price field is rounded to
two decimals. -/
structure HourlyResult where
  timestamp : DT
  base_kw : ℚ
  ev_kw_without : ℚ
  ev_kw_with : ℚ
  total_kw_without : ℚ
  total_kw_with : ℚ
  spot_price : ℚ
  is_peak_hour : Bool
deriving DecidableEq, Inhabited

/-- `CostBreakdown` of `app/models/simulation.py`. -/
structure CostBreakdown where
  spot_cost_without : ℚ
  spot_cost_with : ℚ
  capacity_cost_without : ℚ
  capacity_cost_with : ℚ
  peak_cost_without : ℚ
  peak_cost_with : ℚ
  base_monthly_fee : ℚ
deriving DecidableEq, Inhabited

/-- `SimulationResult` of `app/models/simulation.py`, extended with
the model-level raw (pre-rounding) series and the selected safety
margin, which the source keeps in local variables, and with
`lkg_saved`, recording step 6 (the last-known-good cache is written
exactly on `ok` runs). -/
structure SimulationResult where
  period_start : ℤ
  period_end : ℤ
  cost_without_derivatio : ℚ
  cost_with_derivatio : ℚ
  savings_total : ℚ
  savings_pct : ℚ
  peak_kw_without : ℚ
  peak_kw_with : ℚ
  monte_carlo : MCStats
  breakdown : CostBreakdown
  hourly_data : List HourlyResult
  worst_days_avoided : List ℤ
  data_quality : DataQuality
  safety_margin : ℚ
  base_load_arr : ℕ → ℚ
  ev_naive_arr : ℕ → ℚ
  ev_lp_arr : ℕ → ℚ
  total_naive_arr : ℕ → ℚ
  total_lp_arr : ℕ → ℚ
  spot_arr : ℕ → ℚ
  lkg_saved : Bool

/-- One `HourlyResult` row of step 10 of `run_simulation`: every kW
and price field is the corresponding series value rounded to two
decimals (`total = base_load + ev` pointwise, rounded after the
sum). -/
def hourlyRow (tf : GridTariff) (ts : List DT)
    (base_load ev_naive ev_lp spot : ℕ → ℚ) (i : ℕ) : HourlyResult :=
  { timestamp := ts.getD i default
    base_kw := round2 (base_load i)
    ev_kw_without := round2 (ev_naive i)
    ev_kw_with := round2 (ev_lp i)
    total_kw_without := round2 (base_load i + ev_naive i)
    total_kw_with := round2 (base_load i + ev_lp i)
    spot_price := round2 (spot i)
    is_peak_hour := tf.is_peak_hour (ts.getD i default) }

/-- `run_simulation` from `app/core/optimizer.py`.  `ωbase`/`ωspot`
are the synthetic-curve draw streams, `sol` the primary LP solver
answer, `mc` the Monte-Carlo block (see `MCStats`). -/
def run_simulation (inp : SimulationInput) (ωbase ωspot : ℕ → ℚ)
    (sol : Option (ℕ → ℚ)) (mc : MCStats) : SimulationResult :=
  let ts := inp.timestamps
  let n := ts.length
  let months : ℤ :=
    max 1 (roundHalfEven (((inp.period_end - inp.period_start : ℤ) : ℚ) / 30))
  let base_load := sim_base_load inp ωbase
  let spot := sim_spot inp ωspot
  let dq := sim_quality inp
  let kwh_needed := sim_kwh_needed inp
  let fleet_kw := sim_fleet_kw inp
  let ev_naive := naive_ev_schedule n fleet_kw kwh_needed
    inp.fleet.avg_arrival_hour inp.fleet.avg_departure_hour spot ts
  let ev_lp := lp_ev_schedule sol n base_load fleet_kw kwh_needed
    inp.fleet.avg_arrival_hour inp.fleet.avg_departure_hour spot
    inp.tariff inp.subscription_kw ts dq.2
  let total_naive := fun i => base_load i + ev_naive i
  let total_lp := fun i => base_load i + ev_lp i
  let spotList := (List.range n).map spot
  let cost_naive := calc_total_cost ((List.range n).map total_naive) spotList
    inp.tariff ts months
  let cost_lp := calc_total_cost ((List.range n).map total_lp) spotList
    inp.tariff ts months
  let savings := cost_naive.total - cost_lp.total
  let savings_pct :=
    if cost_naive.total > 0 then savings / cost_naive.total * 100 else 0
  let dayKeys := (ts.map DT.day).foldl
    (fun acc d => if d ∈ acc then acc else acc ++ [d]) []
  let dailyRed := fun (d : ℤ) =>
    ((List.range n).filter (fun i => (ts.getD i default).day = d)).foldl
      (fun acc i => acc + (total_naive i - total_lp i)) 0
  let worst_days := (List.insertionSort
    (fun d1 d2 => dailyRed d2 ≤ dailyRed d1) dayKeys).take 5
  let hourly_data := (List.range n).map
    (hourlyRow inp.tariff ts base_load ev_naive ev_lp spot)
  { period_start := inp.period_start
    period_end := inp.period_end
    cost_without_derivatio := cost_naive.total
    cost_with_derivatio := cost_lp.total
    savings_total := round2 savings
    savings_pct := round1 savings_pct
    peak_kw_without := cost_naive.p_max_all
    peak_kw_with := cost_lp.p_max_all
    monte_carlo := mc
    breakdown :=
      { spot_cost_without := cost_naive.energy_cost
        spot_cost_with := cost_lp.energy_cost
        capacity_cost_without := cost_naive.capacity_cost
        capacity_cost_with := cost_lp.capacity_cost
        peak_cost_without := cost_naive.peak_cost
        peak_cost_with := cost_lp.peak_cost
        base_monthly_fee := cost_naive.base_fee }
    hourly_data := hourly_data
    worst_days_avoided := worst_days
    data_quality := dq.1
    safety_margin := dq.2
    base_load_arr := base_load
    ev_naive_arr := ev_naive
    ev_lp_arr := ev_lp
    total_naive_arr := total_naive
    total_lp_arr := total_lp
    spot_arr := spot
    lkg_saved := dq.1 = DataQuality.ok }


/-! ## Supporting lemmas -/

theorem round2_round2 (q : ℚ) : round2 (round2 q) = round2 q := by
  unfold round2
  have h : (((roundHalfEven (q * 100) : ℤ) : ℚ) / 100) * 100
      = ((roundHalfEven (q * 100) : ℤ) : ℚ) := by field_simp
  rw [h, roundHalfEven_intCast]

theorem roundHalfEven_eq_down (q : ℚ) (f : ℤ) (h1 : (f:ℚ) ≤ q)
    (h2 : q < (f:ℚ) + 1/2) : roundHalfEven q = f := by
  have hfl : ⌊q⌋ = f := by
    rw [Int.floor_eq_iff]
    exact ⟨h1, by push_cast; linarith⟩
  unfold roundHalfEven
  rw [hfl, if_pos (by linarith)]

theorem roundHalfEven_eq_up (q : ℚ) (f : ℤ) (h1 : (f:ℚ) + 1/2 < q)
    (h2 : q < (f:ℚ) + 1) : roundHalfEven q = f + 1 := by
  have hfl : ⌊q⌋ = f := by
    rw [Int.floor_eq_iff]
    exact ⟨by linarith, by push_cast; linarith⟩
  unfold roundHalfEven
  rw [hfl, if_neg (by linarith), if_pos (by linarith)]

theorem round2_eq_down (q : ℚ) (k : ℤ) (h1 : (k:ℚ) ≤ q * 100)
    (h2 : q * 100 < (k:ℚ) + 1/2) : round2 q = (k:ℚ)/100 := by
  unfold round2
  rw [roundHalfEven_eq_down (q * 100) k h1 h2]

theorem round2_eq_up (q : ℚ) (k : ℤ) (h1 : (k:ℚ) + 1/2 < q * 100)
    (h2 : q * 100 < (k:ℚ) + 1) : round2 q = ((k:ℚ) + 1)/100 := by
  unfold round2
  rw [roundHalfEven_eq_up (q * 100) k h1 h2]
  push_cast
  ring_nf

theorem round2_intCast (k : ℤ) : round2 (k:ℚ) = (k:ℚ) := by
  unfold round2
  rw [show ((k:ℚ) * 100) = ((k * 100 : ℤ) : ℚ) by push_cast; ring,
    roundHalfEven_intCast]
  push_cast
  ring

theorem round3_intCast (k : ℤ) : round3 (k:ℚ) = (k:ℚ) := by
  unfold round3
  rw [show ((k:ℚ) * 1000) = ((k * 1000 : ℤ) : ℚ) by push_cast; ring,
    roundHalfEven_intCast]
  push_cast
  ring

/-! ## Claim C8 -/

/-- Claim C8 (confirmed): for every date pair with `start ≤ end`, the
fallback series has exactly `24·(days_inclusive + 1)` entries
(`days_inclusive = end − start`), every entry's price is the fallback
constant `FALLBACK_PRICE_ORE = 120`, the timestamps ascend hour by
hour, and the series starts at `start` 00:00 — so it covers the closed
interval. -/
theorem C8_fallback_series (s e : ℤ) (h : s ≤ e) :
    (((fallback_prices s e).length : ℤ) = 24 * ((e - s) + 1)) ∧
    (∀ p ∈ fallback_prices s e, p.2 = FALLBACK_PRICE_ORE) ∧
    (fallback_prices s e).Chain' (fun p q => q.1 = p.1 + 1) ∧
    (fallback_prices s e).head? = some (s * 24, FALLBACK_PRICE_ORE) := by
  have hpos : (0:ℤ) ≤ 24 * (e + 1 - s) := by linarith
  refine ⟨?_, ?_, ?_, ?_⟩
  · simp only [fallback_prices, List.length_map, List.length_range]
    rw [Int.toNat_of_nonneg hpos]; ring
  · intro p hp
    simp only [fallback_prices, List.mem_map] at hp
    obtain ⟨k, _, hk⟩ := hp
    rw [← hk]
  · simp only [fallback_prices]
    rw [List.chain'_map]
    generalize (24 * (e + 1 - s)).toNat = N
    cases N with
    | zero => simp
    | succ m =>
      rw [List.chain'_range_succ]
      intro k hk
      push_cast
      ring
  · simp only [fallback_prices]
    have hlen : (24 * (e + 1 - s)).toNat ≠ 0 := by
      intro hz
      have h2 := Int.toNat_of_nonneg hpos
      rw [hz] at h2
      simp at h2
      omega
    obtain ⟨m, hm⟩ := Nat.exists_eq_succ_of_ne_zero hlen
    rw [hm, List.range_succ_eq_map]
    simp

/-- Witness for C8 at the concrete pair `start = end = 0`. -/
theorem C8_fallback_series_witness :
    ((0:ℤ) ≤ 0) ∧
    ((((fallback_prices 0 0).length : ℤ) = 24 * (((0:ℤ) - 0) + 1)) ∧
     (∀ p ∈ fallback_prices 0 0, p.2 = FALLBACK_PRICE_ORE) ∧
     (fallback_prices 0 0).Chain' (fun p q => q.1 = p.1 + 1) ∧
     (fallback_prices 0 0).head? = some (0 * 24, FALLBACK_PRICE_ORE)) :=
  ⟨le_refl 0, C8_fallback_series 0 0 (le_refl 0)⟩

/-! ## Claim C7 -/

/-- Claim C7 is false on the code: the night branch of
`_syntetiska_spotpriser` draws `U(-20, 10)` — it can *add* up to 10 —
so with the admissible draw 10 the hour-0 price is 130 > 120. -/
theorem C7_counterexample :
    SpotprisDraws (fun _ => 10) 1 ∧
    syntetiska_spotpriser (fun _ => 10) 0 = 130 ∧
    ¬(syntetiska_spotpriser (fun _ => 10) 0 ≤ 120) := by
  have hval : syntetiska_spotpriser (fun _ => 10) 0 = 130 := by
    simp only [syntetiska_spotpriser]
    norm_num
  refine ⟨?_, hval, by rw [hval]; norm_num⟩
  intro i hi
  interval_cases i
  simp only [SpotprisDraws]
  norm_num

/-- Claim C7 as amended: for every hour whose local hour lies in
`[0,5)`, the synthetic price is `max 0 (120 + u)` for a draw
`u ∈ [−20, 10]`, hence always in `[100, 130]` (it can exceed the base
120 by up to 10; the clamp at 0 never binds). -/
theorem C7_night_price_bounds (ω : ℕ → ℚ) (n i : ℕ)
    (hd : SpotprisDraws ω n) (hi : i < n) (hh : i % 24 < 5) :
    syntetiska_spotpriser ω i = max 0 (120 + ω i) ∧
    100 ≤ syntetiska_spotpriser ω i ∧
    syntetiska_spotpriser ω i ≤ 130 := by
  have hspec := hd i hi
  have hnotpeak : ¬(i % 24 = 7 ∨ i % 24 = 8 ∨ i % 24 = 9 ∨ i % 24 = 17 ∨
      i % 24 = 18 ∨ i % 24 = 19 ∨ i % 24 = 20) := by omega
  have hle4 : i % 24 ≤ 4 := by omega
  rw [if_neg hnotpeak, if_pos hle4] at hspec
  obtain ⟨hlo, hhi⟩ := hspec
  have hval : syntetiska_spotpriser ω i = max 0 (120 + ω i) := by
    unfold syntetiska_spotpriser
    rw [if_neg hnotpeak, if_pos hle4]
  have hmax : max (0:ℚ) (120 + ω i) = 120 + ω i :=
    max_eq_right (by linarith)
  refine ⟨hval, ?_, ?_⟩
  · rw [hval, hmax]; linarith
  · rw [hval, hmax]; linarith

/-- Witness for the amended C7 at `ω = const 0`, `n = 1`, `i = 0`. -/
theorem C7_night_price_bounds_witness :
    SpotprisDraws (fun _ => 0) 1 ∧ 0 < 1 ∧ 0 % 24 < 5 ∧
    (syntetiska_spotpriser (fun _ => 0) 0 = max 0 (120 + 0) ∧
     100 ≤ syntetiska_spotpriser (fun _ => 0) 0 ∧
     syntetiska_spotpriser (fun _ => 0) 0 ≤ 130) := by
  have hd : SpotprisDraws (fun _ => 0) 1 := by
    intro i hi
    interval_cases i
    simp only [SpotprisDraws]
    norm_num
  exact ⟨hd, by norm_num, by norm_num,
    C7_night_price_bounds (fun _ => 0) 1 0 hd (by norm_num) (by norm_num)⟩

/-! ## Claim C9 -/

theorem round3_zero : round3 0 = 0 := by
  rw [show (0:ℚ) = ((0:ℤ):ℚ) by norm_num, round3_intCast]

theorem round3_one : round3 1 = 1 := by
  rw [show (1:ℚ) = ((1:ℤ):ℚ) by norm_num, round3_intCast]

/-- Concrete tariff exercising the rounding of `calc_total_cost`:
fees of 1.004 produce components that round down while their sum
rounds up. -/
def tariffRound : GridTariff :=
  { base_monthly_fee := 251/250, capacity_fee_kw := 251/250,
    peak_fee_kw := 0, peak_hours_start := 0, peak_hours_end := 24,
    peak_months := [1], peak_weekdays_only := true,
    peak_calc_method := "single", energy_fee_peak := 0,
    energy_fee_offpeak := 0 }

/-- A Saturday timestamp (weekday 5), so the peak-hour set is empty
under a weekdays-only tariff. -/
def dtSat : DT := ⟨0, 0, 1, 5⟩

/-- Claim C9 is false on the code: `calc_total_cost` rounds the
returned components individually but computes `total` from the
*pre-rounding* capacity, peak and base-fee values, so the returned
total (2.01 here) differs from the sum of the returned components
(2.00). -/
theorem C9_counterexample :
    (calc_total_cost [1] [0] tariffRound [dtSat] 1).total = 201/100 ∧
    (calc_total_cost [1] [0] tariffRound [dtSat] 1).energy_cost +
      (calc_total_cost [1] [0] tariffRound [dtSat] 1).capacity_cost +
      (calc_total_cost [1] [0] tariffRound [dtSat] 1).peak_cost +
      (calc_total_cost [1] [0] tariffRound [dtSat] 1).base_fee = 2 ∧
    ((201:ℚ)/100 ≠ 2) := by
  have hpk : tariffRound.is_peak_hour dtSat = false := by
    simp [tariffRound, dtSat, GridTariff.is_peak_hour]
  have hec : calc_energy_cost [1] [0] tariffRound [dtSat] = 0 := by
    simp only [calc_energy_cost, List.zip_cons_cons, List.zip_nil_right,
      List.zip_nil_left, List.foldl_cons, List.foldl_nil, hpk]
    rw [if_neg Bool.false_ne_true]
    rw [show ((0:ℚ) + 1 * (0/100 + tariffRound.energy_fee_offpeak)) = 0 by
      simp [tariffRound], round2_zero]
  have hpp : calc_peak_power [1] tariffRound [dtSat] = (1, 0) := by
    simp only [calc_peak_power, List.zip_cons_cons, List.zip_nil_right,
      List.zip_nil_left, List.filter, hpk]
    rw [show tariffRound.peak_calc_method = "single" from rfl,
      if_neg (by decide : ¬("single" = "avg3")),
      if_neg (by decide : ¬("single" = "avg5"))]
    norm_num [pymax, round3_zero, round3_one]
  have hcap : round2 ((calc_peak_power [1] tariffRound [dtSat]).1 *
      tariffRound.capacity_fee_kw) = 1 := by
    rw [hpp]
    rw [show ((1, (0:ℚ)).1 * tariffRound.capacity_fee_kw) = 251/250 by
      simp [tariffRound]]
    rw [round2_eq_down (251/250) 100 (by norm_num) (by norm_num)]
    norm_num
  have hpkc : round2 ((calc_peak_power [1] tariffRound [dtSat]).2 *
      tariffRound.peak_fee_kw) = 0 := by
    rw [hpp]
    rw [show (((1:ℚ), (0:ℚ)).2 * tariffRound.peak_fee_kw) = 0 by
      simp [tariffRound]]
    exact round2_zero
  have hbase : round2 (tariffRound.base_monthly_fee * ((1:ℤ):ℚ)) = 1 := by
    rw [show (tariffRound.base_monthly_fee * ((1:ℤ):ℚ)) = 251/250 by
      simp [tariffRound]]
    rw [round2_eq_down (251/250) 100 (by norm_num) (by norm_num)]
    norm_num
  have htot : round2 (calc_energy_cost [1] [0] tariffRound [dtSat] +
      (calc_peak_power [1] tariffRound [dtSat]).1 * tariffRound.capacity_fee_kw +
      (calc_peak_power [1] tariffRound [dtSat]).2 * tariffRound.peak_fee_kw +
      tariffRound.base_monthly_fee * ((1:ℤ):ℚ)) = 201/100 := by
    rw [hec, hpp]
    rw [show ((0:ℚ) + ((1:ℚ), (0:ℚ)).1 * tariffRound.capacity_fee_kw +
      ((1:ℚ), (0:ℚ)).2 * tariffRound.peak_fee_kw +
      tariffRound.base_monthly_fee * ((1:ℤ):ℚ)) = 502/250 by
      simp [tariffRound]; norm_num]
    rw [round2_eq_up (502/250) 200 (by norm_num) (by norm_num)]
    norm_num
  refine ⟨?_, ?_, by norm_num⟩
  · simp only [calc_total_cost]
    exact htot
  · simp only [calc_total_cost]
    rw [hec, round2_zero, hcap, hpkc, hbase]
    norm_num

/-- Claim C9 as amended: every returned monetary value of
`calc_total_cost` is a whole number of hundredths (rounded to two
decimals), and the returned total is the two-decimal rounding of the
sum of the *pre-rounding* components — hence it can differ from the
sum of the returned components, though by at most 0.02. -/
theorem C9_cost_totals (hourly spot : List ℚ) (tf : GridTariff)
    (ts : List DT) (months : ℤ) :
    (∃ k : ℤ, (calc_total_cost hourly spot tf ts months).energy_cost = (k:ℚ)/100) ∧
    (∃ k : ℤ, (calc_total_cost hourly spot tf ts months).capacity_cost = (k:ℚ)/100) ∧
    (∃ k : ℤ, (calc_total_cost hourly spot tf ts months).peak_cost = (k:ℚ)/100) ∧
    (∃ k : ℤ, (calc_total_cost hourly spot tf ts months).base_fee = (k:ℚ)/100) ∧
    (∃ k : ℤ, (calc_total_cost hourly spot tf ts months).total = (k:ℚ)/100) ∧
    |(calc_total_cost hourly spot tf ts months).total -
      ((calc_total_cost hourly spot tf ts months).energy_cost +
       (calc_total_cost hourly spot tf ts months).capacity_cost +
       (calc_total_cost hourly spot tf ts months).peak_cost +
       (calc_total_cost hourly spot tf ts months).base_fee)| ≤ 2/100 := by
  simp only [calc_total_cost]
  refine ⟨round2_eq_div _, round2_eq_div _, round2_eq_div _, round2_eq_div _,
    round2_eq_div _, ?_⟩
  set E := calc_energy_cost hourly spot tf ts with hE
  set C := (calc_peak_power hourly tf ts).1 * tf.capacity_fee_kw with hC
  set P := (calc_peak_power hourly tf ts).2 * tf.peak_fee_kw with hP
  set B := tf.base_monthly_fee * (months : ℚ) with hB
  have hEfix : round2 E = E := by
    rw [hE]; unfold calc_energy_cost; exact round2_round2 _
  have h1 := abs_le.mp (abs_round2_sub_le (E + C + P + B))
  have h2 := abs_le.mp (abs_round2_sub_le C)
  have h3 := abs_le.mp (abs_round2_sub_le P)
  have h4 := abs_le.mp (abs_round2_sub_le B)
  rw [hEfix, abs_le]
  constructor
  · linarith [h1.1, h2.2, h3.2, h4.2]
  · linarith [h1.2, h2.1, h3.1, h4.1]

/-! ## Price-source supporting lemmas -/

theorem coalesce_keys (acc : List PriceEntry) (k : ℤ) (p : ℚ) :
    (coalesce acc k p).map Prod.fst =
      if k ∈ acc.map Prod.fst then acc.map Prod.fst
      else acc.map Prod.fst ++ [k] := by
  induction acc with
  | nil => simp [coalesce]
  | cons hd t ih =>
    obtain ⟨k0, v0⟩ := hd
    by_cases hk : k0 = k
    · subst hk
      simp [coalesce]
    · simp only [coalesce, if_neg hk, List.map_cons, ih]
      have hmem : k ∈ (k0 :: t.map Prod.fst) ↔ k ∈ t.map Prod.fst := by
        simp [List.mem_cons, Ne.symm hk]
      by_cases hm : k ∈ t.map Prod.fst
      · rw [if_pos hm, if_pos (by simp [hmem, hm])]
      · rw [if_neg hm, if_neg (by simp [hmem, hm])]
        simp

theorem coalesce_keys_nodup (acc : List PriceEntry) (k : ℤ) (p : ℚ)
    (h : (acc.map Prod.fst).Nodup) :
    ((coalesce acc k p).map Prod.fst).Nodup := by
  rw [coalesce_keys]
  by_cases hm : k ∈ acc.map Prod.fst
  · rwa [if_pos hm]
  · rw [if_neg hm, List.nodup_append]
    refine ⟨h, List.nodup_singleton k, ?_⟩
    intro x hx hx'
    simp only [List.mem_singleton] at hx'
    subst hx'
    exact hm hx

theorem foldl_coalesce_nodup (κ : Point → ℤ) (v : Point → ℚ) :
    ∀ (pts : List Point) (acc : List PriceEntry), (acc.map Prod.fst).Nodup →
      ((pts.foldl (fun a pt => coalesce a (κ pt) (v pt)) acc).map Prod.fst).Nodup := by
  intro pts
  induction pts with
  | nil => intro acc h; exact h
  | cons p t ih =>
    intro acc h
    simp only [List.foldl_cons]
    exact ih _ (coalesce_keys_nodup _ _ _ h)

theorem periodStep_keys_nodup (acc : List PriceEntry) (period : Period)
    (h : (acc.map Prod.fst).Nodup) :
    ((periodStep acc period).map Prod.fst).Nodup := by
  unfold periodStep
  cases hst : period.startUtcMin with
  | none => exact h
  | some t0 =>
    exact foldl_coalesce_nodup
      (fun pt => Int.fdiv (t0 + (pt.position - 1) *
        (parse_resolution period.resolution : ℤ) + 60) 60)
      (fun pt => pt.price_amount * EUR_MWH_TO_ORE_KWH)
      period.points acc h

theorem parse_xml_results_keys_nodup (periods : List Period) :
    ((parse_xml_results periods).map Prod.fst).Nodup := by
  unfold parse_xml_results
  suffices h : ∀ (ps : List Period) (acc : List PriceEntry),
      (acc.map Prod.fst).Nodup →
      ((ps.foldl periodStep acc).map Prod.fst).Nodup from
    h periods [] (by simp)
  intro ps
  induction ps with
  | nil => intro acc h; exact h
  | cons period t ih =>
    intro acc h
    simp only [List.foldl_cons]
    exact ih _ (periodStep_keys_nodup acc period h)

theorem parse_xml_pairwise (periods : List Period) :
    (parse_xml periods).Pairwise (fun p q => p.1 < q.1) := by
  unfold parse_xml
  by_cases h : parse_xml_results periods = []
  · simp [h]
  · rw [if_neg h]
    haveI : IsTotal PriceEntry (fun a b => a.1 ≤ b.1) :=
      ⟨fun a b => le_total a.1 b.1⟩
    haveI : IsTrans PriceEntry (fun a b => a.1 ≤ b.1) :=
      ⟨fun _ _ _ hab hbc => le_trans hab hbc⟩
    have hsorted : (List.insertionSort (fun a b : PriceEntry => a.1 ≤ b.1)
        (parse_xml_results periods)).Pairwise (fun a b => a.1 ≤ b.1) :=
      List.sorted_insertionSort _ _
    have hperm := List.perm_insertionSort (fun a b : PriceEntry => a.1 ≤ b.1)
      (parse_xml_results periods)
    have hnd2 : ((List.insertionSort (fun a b : PriceEntry => a.1 ≤ b.1)
        (parse_xml_results periods)).map Prod.fst).Nodup :=
      (hperm.symm.map Prod.fst).nodup (parse_xml_results_keys_nodup periods)
    have hne : (List.insertionSort (fun a b : PriceEntry => a.1 ≤ b.1)
        (parse_xml_results periods)).Pairwise (fun a b => a.1 ≠ b.1) :=
      List.pairwise_map.mp hnd2
    have hlt := (hsorted.and hne).imp
      (fun hab => lt_of_le_of_ne hab.1 hab.2)
    rw [List.pairwise_map]
    exact hlt

theorem validate_and_clamp_pairwise (l : List PriceEntry)
    (h : l.Pairwise (fun p q => p.1 < q.1)) :
    (validate_and_clamp l).Pairwise (fun p q => p.1 < q.1) := by
  unfold validate_and_clamp
  rw [List.pairwise_map]
  exact h

theorem validate_and_clamp_ne_nil (l : List PriceEntry) (h : l ≠ []) :
    validate_and_clamp l ≠ [] := by
  unfold validate_and_clamp
  simpa using h

theorem fallback_prices_pairwise (s e : ℤ) :
    (fallback_prices s e).Pairwise (fun p q => p.1 < q.1) := by
  unfold fallback_prices
  rw [List.pairwise_map]
  exact (List.pairwise_lt_range _).imp (fun hab => by omega)

theorem fallback_prices_length (s e : ℤ) (h : s ≤ e) :
    ((fallback_prices s e).length : ℤ) = 24 * ((e - s) + 1) := by
  have hpos : (0:ℤ) ≤ 24 * (e + 1 - s) := by linarith
  simp only [fallback_prices, List.length_map, List.length_range]
  rw [Int.toNat_of_nonneg hpos]
  ring

theorem fallback_prices_ne_nil (s e : ℤ) (h : s ≤ e) :
    fallback_prices s e ≠ [] := by
  intro hnil
  have hlen := fallback_prices_length s e h
  rw [hnil] at hlen
  simp at hlen
  omega

theorem parse_xml_singleton :
    parse_xml [⟨some 0, "PT60M", [⟨1, 100⟩]⟩] = [((1:ℤ), (112:ℚ))] := by
  have hres : parse_xml_results [⟨some 0, "PT60M", [⟨1, 100⟩]⟩]
      = [((1:ℤ), 100 * EUR_MWH_TO_ORE_KWH)] := by
    simp only [parse_xml_results, List.foldl_cons, List.foldl_nil, periodStep,
      parse_resolution, coalesce, List.foldl_cons, List.foldl_nil]
    norm_num
  simp only [parse_xml, hres]
  rw [if_neg (by simp)]
  simp only [List.insertionSort, List.orderedInsert, List.map_cons, List.map_nil]
  rw [show ((100:ℚ) * EUR_MWH_TO_ORE_KWH) = ((112:ℤ):ℚ) by
    norm_num [EUR_MWH_TO_ORE_KWH, EUR_SEK], round2_intCast]
  norm_num

theorem validate_and_clamp_singleton :
    validate_and_clamp [((1:ℤ), (112:ℚ))] = [((1:ℤ), (112:ℚ))] := by
  simp only [validate_and_clamp, List.map_cons, List.map_nil]
  rw [if_neg (by norm_num : ¬((112:ℚ) < 0))]
  rw [max_eq_right (by norm_num [PRICE_MIN_ORE] : PRICE_MIN_ORE ≤ (112:ℚ))]
  rw [show (112:ℚ) = ((112:ℤ):ℚ) by norm_num, round2_intCast]

/-! ## Claim C2 -/

/-- Claim C2 is false on the code: on a *successful* upstream fetch
the returned series is whatever the XML yields — here a document with
a single point produces a 1-entry series, not `24·(days+1) = 24`
entries. -/
theorem C2_counterexample :
    (fetch_day_ahead_prices "SE1" 0 0 "t"
        (HttpOutcome.httpOk (some [⟨some 0, "PT60M", [⟨1, 100⟩]⟩])) []).1
      = Except.ok [((1:ℤ), (112:ℚ))] ∧
    ¬((([((1:ℤ), (112:ℚ))] : List PriceEntry).length : ℤ)
        = 24 * (((0:ℤ) - 0) + 1)) := by
  constructor
  · have hp : pyUpper "SE1" = "SE1" := by decide
    have ha : AREA_CODES.lookup "SE1" = some "10Y1001A1001A44P" := by decide
    have hfx : fetch_xml "t" (HttpOutcome.httpOk
        (some [⟨some 0, "PT60M", [⟨1, 100⟩]⟩]))
        = (Except.ok (some [⟨some 0, "PT60M", [⟨1, 100⟩]⟩]), 1) := by
      simp [fetch_xml]
    simp only [fetch_day_ahead_prices, hp, ha, List.lookup_nil, hfx]
    rw [if_neg (by simp [parse_xml_singleton])]
    rw [parse_xml_singleton, validate_and_clamp_singleton]
  · decide

/-- Claim C2 as amended: with a known bidding zone and an empty cache,
`fetch_day_ahead_prices` always returns `Except.ok` of a nonempty,
strictly-ascending hourly series; on every classified failure (empty
token, 401, 400, 5xx, timeout, connection error, malformed XML, empty
parse) that series is the fallback series of exactly `24·(days+1)`
entries, while on a successful nonempty parse it is the validated
parse result, whose length is the number of distinct parsed local
hours — not necessarily `24·(days+1)`. -/
theorem C2_fetch_shape (area code : String)
    (harea : AREA_CODES.lookup (pyUpper area) = some code)
    (s e : ℤ) (hse : s ≤ e) (token : String) (o : HttpOutcome) :
    ∃ l, (fetch_day_ahead_prices area s e token o []).1 = Except.ok l ∧
      l ≠ [] ∧ l.Pairwise (fun p q => p.1 < q.1) ∧
      ((l = fallback_prices s e ∧ (l.length : ℤ) = 24 * ((e - s) + 1)) ∨
       (∃ periods, ¬(token = "") ∧ o = HttpOutcome.httpOk (some periods) ∧
         ¬(parse_xml periods = []) ∧
         l = validate_and_clamp (parse_xml periods))) := by
  have hfb : ∃ l, (Except.ok (fallback_prices s e) :
        Except String (List PriceEntry)) = Except.ok l ∧
      l ≠ [] ∧ l.Pairwise (fun p q => p.1 < q.1) ∧
      ((l = fallback_prices s e ∧ (l.length : ℤ) = 24 * ((e - s) + 1)) ∨
       (∃ periods, ¬(token = "") ∧ o = HttpOutcome.httpOk (some periods) ∧
         ¬(parse_xml periods = []) ∧
         l = validate_and_clamp (parse_xml periods))) :=
    ⟨fallback_prices s e, rfl, fallback_prices_ne_nil s e hse,
      fallback_prices_pairwise s e,
      Or.inl ⟨rfl, fallback_prices_length s e hse⟩⟩
  by_cases htok : token = ""
  · subst htok
    have hres : (fetch_day_ahead_prices area s e "" o []).1
        = Except.ok (fallback_prices s e) := by
      simp [fetch_day_ahead_prices, harea, List.lookup_nil, fetch_xml]
    rw [hres]; exact hfb
  · cases o with
    | httpOk doc =>
      cases doc with
      | none =>
        have hres : (fetch_day_ahead_prices area s e token
            (HttpOutcome.httpOk none) []).1
            = Except.ok (fallback_prices s e) := by
          simp [fetch_day_ahead_prices, harea, List.lookup_nil, fetch_xml,
            htok]
        rw [hres]; exact hfb
      | some periods =>
        by_cases hpe : parse_xml periods = []
        · have hres : (fetch_day_ahead_prices area s e token
              (HttpOutcome.httpOk (some periods)) []).1
              = Except.ok (fallback_prices s e) := by
            simp [fetch_day_ahead_prices, harea, List.lookup_nil, fetch_xml,
              htok, hpe]
          rw [hres]; exact hfb
        · have hres : (fetch_day_ahead_prices area s e token
              (HttpOutcome.httpOk (some periods)) []).1
              = Except.ok (validate_and_clamp (parse_xml periods)) := by
            simp [fetch_day_ahead_prices, harea, List.lookup_nil, fetch_xml,
              htok, hpe]
          rw [hres]
          exact ⟨validate_and_clamp (parse_xml periods), rfl,
            validate_and_clamp_ne_nil _ hpe,
            validate_and_clamp_pairwise _ (parse_xml_pairwise periods),
            Or.inr ⟨periods, htok, rfl, hpe, rfl⟩⟩
    | status401 =>
      have hres : (fetch_day_ahead_prices area s e token
          HttpOutcome.status401 []).1 = Except.ok (fallback_prices s e) := by
        simp [fetch_day_ahead_prices, harea, List.lookup_nil, fetch_xml, htok]
      rw [hres]; exact hfb
    | status400 =>
      have hres : (fetch_day_ahead_prices area s e token
          HttpOutcome.status400 []).1 = Except.ok (fallback_prices s e) := by
        simp [fetch_day_ahead_prices, harea, List.lookup_nil, fetch_xml, htok]
      rw [hres]; exact hfb
    | status5xx =>
      have hres : (fetch_day_ahead_prices area s e token
          HttpOutcome.status5xx []).1 = Except.ok (fallback_prices s e) := by
        simp [fetch_day_ahead_prices, harea, List.lookup_nil, fetch_xml, htok]
      rw [hres]; exact hfb
    | timeout =>
      have hres : (fetch_day_ahead_prices area s e token
          HttpOutcome.timeout []).1 = Except.ok (fallback_prices s e) := by
        simp [fetch_day_ahead_prices, harea, List.lookup_nil, fetch_xml, htok]
      rw [hres]; exact hfb
    | connectError =>
      have hres : (fetch_day_ahead_prices area s e token
          HttpOutcome.connectError []).1 = Except.ok (fallback_prices s e) := by
        simp [fetch_day_ahead_prices, harea, List.lookup_nil, fetch_xml, htok]
      rw [hres]; exact hfb

/-- Witness for the amended C2: `SE1`, one day, upstream timeout. -/
theorem C2_fetch_shape_witness :
    (AREA_CODES.lookup (pyUpper "SE1") = some "10Y1001A1001A44P") ∧
    ((0:ℤ) ≤ 0) ∧
    (∃ l, (fetch_day_ahead_prices "SE1" 0 0 "t" HttpOutcome.timeout []).1
        = Except.ok l ∧
      l ≠ [] ∧ l.Pairwise (fun p q => p.1 < q.1) ∧
      ((l = fallback_prices 0 0 ∧ (l.length : ℤ) = 24 * (((0:ℤ) - 0) + 1)) ∨
       (∃ periods, ¬(("t":String) = "") ∧
         HttpOutcome.timeout = HttpOutcome.httpOk (some periods) ∧
         ¬(parse_xml periods = []) ∧
         l = validate_and_clamp (parse_xml periods)))) :=
  ⟨by decide, le_refl 0,
    C2_fetch_shape "SE1" "10Y1001A1001A44P" (by decide) 0 0 (le_refl 0) "t"
      HttpOutcome.timeout⟩

/-! ## Claim C3 -/

/-- Claim C3 is false on the code: with a missing token (the
auth-error case) `fetch_day_ahead_prices` does not fail upward — it
returns `Except.ok` of the substituted fallback series. -/
theorem C3_counterexample :
    (fetch_day_ahead_prices "SE1" 0 0 "" HttpOutcome.status401 []).1
      = Except.ok (fallback_prices 0 0) ∧
    (Except.ok (fallback_prices 0 0) :
      Except String (List PriceEntry)) ≠ Except.error "Okänt elområde" := by
  constructor
  · have hp : pyUpper "SE1" = "SE1" := by decide
    have ha : AREA_CODES.lookup "SE1" = some "10Y1001A1001A44P" := by decide
    simp [fetch_day_ahead_prices, hp, ha, List.lookup_nil, fetch_xml]
  · intro h
    exact Except.noConfusion h

/-- Claim C3 as amended: only an *unknown bidding zone* fails upward
(the `ValueError`, modelled as `Except.error`); a missing or invalid
API token (`ENTSOEAuthError`, raised for an empty token before any
HTTP call or on a 401) is logged and *substituted* with the fallback
price series. -/
theorem C3_auth_behavior (s e : ℤ) (area area2 token : String)
    (code : String)
    (harea : AREA_CODES.lookup (pyUpper area) = some code)
    (hbad : AREA_CODES.lookup (pyUpper area2) = none)
    (o : HttpOutcome) (hauth : token = "" ∨ o = HttpOutcome.status401) :
    (fetch_day_ahead_prices area s e token o []).1
      = Except.ok (fallback_prices s e) ∧
    (∀ (token2 : String) (o2 : HttpOutcome) (cache2 : PriceCache),
      (fetch_day_ahead_prices area2 s e token2 o2 cache2).1
        = Except.error "Okänt elområde") := by
  constructor
  · rcases hauth with htok | h401
    · subst htok
      simp [fetch_day_ahead_prices, harea, List.lookup_nil, fetch_xml]
    · subst h401
      by_cases htok : token = ""
      · subst htok
        simp [fetch_day_ahead_prices, harea, List.lookup_nil, fetch_xml]
      · simp [fetch_day_ahead_prices, harea, List.lookup_nil, fetch_xml, htok]
  · intro token2 o2 cache2
    simp [fetch_day_ahead_prices, hbad]

/-- Witness for the amended C3: `SE1` with an empty token and a 401;
`XX` as the unknown zone. -/
theorem C3_auth_behavior_witness :
    (AREA_CODES.lookup (pyUpper "SE1") = some "10Y1001A1001A44P") ∧
    (AREA_CODES.lookup (pyUpper "XX") = none) ∧
    ((("":String) = "") ∨ HttpOutcome.status401 = HttpOutcome.status401) ∧
    ((fetch_day_ahead_prices "SE1" 0 0 "" HttpOutcome.status401 []).1
        = Except.ok (fallback_prices 0 0) ∧
     (∀ (token2 : String) (o2 : HttpOutcome) (cache2 : PriceCache),
       (fetch_day_ahead_prices "XX" 0 0 token2 o2 cache2).1
         = Except.error "Okänt elområde")) :=
  ⟨by decide, by decide, Or.inl rfl,
    C3_auth_behavior 0 0 "SE1" "XX" "" "10Y1001A1001A44P" (by decide)
      (by decide) HttpOutcome.status401 (Or.inl rfl)⟩

/-! ## Claim C6 -/

/-- Claim C6 is false on the code: the cache is written only on a
successful nonempty parse, so after a failed first call (here a
timeout) an identical second call performs a second upstream fetch —
two in total, not one. -/
theorem C6_counterexample :
    (fetch_day_ahead_prices "SE1" 0 0 "t" HttpOutcome.timeout []).2.2 +
      (fetch_day_ahead_prices "SE1" 0 0 "t" HttpOutcome.timeout
        (fetch_day_ahead_prices "SE1" 0 0 "t" HttpOutcome.timeout
          []).2.1).2.2 = 2 ∧
    (2:ℕ) ≠ 1 := by
  have hp : pyUpper "SE1" = "SE1" := by decide
  have ha : AREA_CODES.lookup "SE1" = some "10Y1001A1001A44P" := by decide
  have h1 : fetch_day_ahead_prices "SE1" 0 0 "t" HttpOutcome.timeout []
      = (Except.ok (fallback_prices 0 0), [], 1) := by
    simp [fetch_day_ahead_prices, hp, ha, List.lookup_nil, fetch_xml]
  rw [h1]
  rw [show ((Except.ok (fallback_prices 0 0) :
      Except String (List PriceEntry)), ([]:PriceCache), 1).2.1
      = ([]:PriceCache) from rfl]
  rw [h1]
  exact ⟨rfl, by decide⟩

/-- Claim C6 as amended: the two-successive-call law holds only when
the first call *succeeds* with a nonempty parse — then the result is
cached, the second call is a cache hit, and exactly one upstream fetch
happens in total; after any failure nothing is cached (see the
counterexample, where the total is two). -/
theorem C6_cache_after_success (area code token : String) (s e : ℤ)
    (harea : AREA_CODES.lookup (pyUpper area) = some code)
    (htok : ¬(token = "")) (periods : List Period)
    (hne : ¬(parse_xml periods = [])) (o2 : HttpOutcome) :
    (fetch_day_ahead_prices area s e token
        (HttpOutcome.httpOk (some periods)) []).2.2 = 1 ∧
    (fetch_day_ahead_prices area s e token o2
        (fetch_day_ahead_prices area s e token
          (HttpOutcome.httpOk (some periods)) []).2.1).2.2 = 0 ∧
    (fetch_day_ahead_prices area s e token o2
        (fetch_day_ahead_prices area s e token
          (HttpOutcome.httpOk (some periods)) []).2.1).1 =
      (fetch_day_ahead_prices area s e token
        (HttpOutcome.httpOk (some periods)) []).1 := by
  have h1 : fetch_day_ahead_prices area s e token
      (HttpOutcome.httpOk (some periods)) []
      = (Except.ok (validate_and_clamp (parse_xml periods)),
         [((area, s, e), validate_and_clamp (parse_xml periods))], 1) := by
    simp [fetch_day_ahead_prices, harea, List.lookup_nil, fetch_xml, htok,
      hne]
  have h2 : fetch_day_ahead_prices area s e token o2
      [((area, s, e), validate_and_clamp (parse_xml periods))]
      = (Except.ok (validate_and_clamp (parse_xml periods)),
         [((area, s, e), validate_and_clamp (parse_xml periods))], 0) := by
    simp only [fetch_day_ahead_prices]
    rw [harea]
    simp [List.lookup]
  rw [h1]
  rw [show ((Except.ok (validate_and_clamp (parse_xml periods)) :
      Except String (List PriceEntry)),
      [((area, s, e), validate_and_clamp (parse_xml periods))], 1).2.1
      = [((area, s, e), validate_and_clamp (parse_xml periods))] from rfl]
  rw [h2]
  exact ⟨rfl, rfl, rfl⟩

/-- Witness for the amended C6 at `SE1` with the one-point document
(whose parse is the nonempty `[(1, 112)]`) and a timeout on the second
call. -/
theorem C6_cache_after_success_witness :
    (AREA_CODES.lookup (pyUpper "SE1") = some "10Y1001A1001A44P") ∧
    (¬(("t":String) = "")) ∧
    (¬(parse_xml [⟨some 0, "PT60M", [⟨1, 100⟩]⟩] = [])) ∧
    ((fetch_day_ahead_prices "SE1" 0 0 "t"
        (HttpOutcome.httpOk (some [⟨some 0, "PT60M", [⟨1, 100⟩]⟩])) []).2.2
        = 1 ∧
     (fetch_day_ahead_prices "SE1" 0 0 "t" HttpOutcome.timeout
        (fetch_day_ahead_prices "SE1" 0 0 "t"
          (HttpOutcome.httpOk (some [⟨some 0, "PT60M", [⟨1, 100⟩]⟩])) []).2.1).2.2
        = 0 ∧
     (fetch_day_ahead_prices "SE1" 0 0 "t" HttpOutcome.timeout
        (fetch_day_ahead_prices "SE1" 0 0 "t"
          (HttpOutcome.httpOk (some [⟨some 0, "PT60M", [⟨1, 100⟩]⟩])) []).2.1).1 =
      (fetch_day_ahead_prices "SE1" 0 0 "t"
        (HttpOutcome.httpOk (some [⟨some 0, "PT60M", [⟨1, 100⟩]⟩])) []).1) :=
  ⟨by decide, by decide, by simp [parse_xml_singleton],
    C6_cache_after_success "SE1" "10Y1001A1001A44P" "t" 0 0 (by decide)
      (by decide) [⟨some 0, "PT60M", [⟨1, 100⟩]⟩]
      (by simp [parse_xml_singleton]) HttpOutcome.timeout⟩

/-! ## Optimizer supporting lemmas -/

theorem naiveAssign_lookup_eq_none (fleet_kw : ℚ) (l : List ℕ) (r : ℚ)
    (i : ℕ) (h : i ∉ l) : (naiveAssign fleet_kw l r).lookup i = none := by
  induction l generalizing r with
  | nil => simp [naiveAssign]
  | cons j t ih =>
    simp only [naiveAssign]
    by_cases hr : r ≤ 0
    · rw [if_pos hr]
      simp
    · rw [if_neg hr]
      have hij : i ≠ j := fun he => h (he ▸ List.mem_cons_self j t)
      have hbeq : (i == j) = false := beq_eq_false_iff_ne.mpr hij
      rw [List.lookup_cons]
      rw [hbeq]
      exact ih _ (fun hm => h (List.mem_cons_of_mem _ hm))

theorem naive_outside_window (n : ℕ) (fleet_kw kwh_needed : ℚ)
    (arrival departure : ℕ) (spot : ℕ → ℚ) (ts : List DT) (i : ℕ)
    (hw : inWindowAt arrival departure ts i = false) :
    naive_ev_schedule n fleet_kw kwh_needed arrival departure spot ts i = 0 := by
  unfold naive_ev_schedule
  have hnw : i ∉ naive_window arrival departure ts := by
    intro hmem
    unfold naive_window at hmem
    rw [List.mem_filter] at hmem
    rw [hmem.2] at hw
    exact Bool.noConfusion hw
  have hns : i ∉ List.insertionSort (fun i j => spot i ≤ spot j)
      (naive_window arrival departure ts) := by
    intro hmem
    exact hnw ((List.perm_insertionSort _ _).mem_iff.mp hmem)
  rw [naiveAssign_lookup_eq_none _ _ _ _ hns]
  rfl

theorem inChargeWindow_self (a h : ℕ) : inChargeWindow a a h = false := by
  unfold inChargeWindow
  rw [if_neg (lt_irrefl a)]
  simp only [Bool.and_eq_false_iff, decide_eq_false_iff_not, not_le, not_lt]
  omega

theorem naive_empty_window (n : ℕ) (fleet_kw kwh_needed : ℚ) (a : ℕ)
    (spot : ℕ → ℚ) (ts : List DT) (i : ℕ) :
    naive_ev_schedule n fleet_kw kwh_needed a a spot ts i = 0 := by
  unfold naive_ev_schedule
  have hwin : naive_window a a ts = [] := by
    unfold naive_window
    rw [List.filter_eq_nil]
    intro j _
    unfold inWindowAt
    rw [inChargeWindow_self]
    simp
  rw [hwin]
  simp [List.insertionSort, naiveAssign, List.lookup_nil]

theorem getD_map_range {α : Type} [Inhabited α] (n t : ℕ) (f : ℕ → α)
    (ht : t < n) : ((List.range n).map f).getD t default = f t := by
  rw [List.getD_eq_getElem?_getD, List.getElem?_map, List.getElem?_range ht]
  rfl

theorem run_simulation_ev_naive (inp : SimulationInput) (ωb ωs : ℕ → ℚ)
    (sol : Option (ℕ → ℚ)) (mc : MCStats) :
    (run_simulation inp ωb ωs sol mc).ev_naive_arr
      = naive_ev_schedule inp.timestamps.length (sim_fleet_kw inp)
          (sim_kwh_needed inp) inp.fleet.avg_arrival_hour
          inp.fleet.avg_departure_hour (sim_spot inp ωs) inp.timestamps := rfl

theorem run_simulation_ev_lp (inp : SimulationInput) (ωb ωs : ℕ → ℚ)
    (sol : Option (ℕ → ℚ)) (mc : MCStats) :
    (run_simulation inp ωb ωs sol mc).ev_lp_arr
      = lp_ev_schedule sol inp.timestamps.length (sim_base_load inp ωb)
          (sim_fleet_kw inp) (sim_kwh_needed inp) inp.fleet.avg_arrival_hour
          inp.fleet.avg_departure_hour (sim_spot inp ωs) inp.tariff
          inp.subscription_kw inp.timestamps (sim_quality inp).2 := rfl

theorem run_simulation_base_load (inp : SimulationInput) (ωb ωs : ℕ → ℚ)
    (sol : Option (ℕ → ℚ)) (mc : MCStats) :
    (run_simulation inp ωb ωs sol mc).base_load_arr
      = sim_base_load inp ωb := rfl

theorem run_simulation_total_lp (inp : SimulationInput) (ωb ωs : ℕ → ℚ)
    (sol : Option (ℕ → ℚ)) (mc : MCStats) :
    (run_simulation inp ωb ωs sol mc).total_lp_arr
      = fun i => (run_simulation inp ωb ωs sol mc).base_load_arr i
          + (run_simulation inp ωb ωs sol mc).ev_lp_arr i := rfl

theorem run_simulation_quality (inp : SimulationInput) (ωb ωs : ℕ → ℚ)
    (sol : Option (ℕ → ℚ)) (mc : MCStats) :
    (run_simulation inp ωb ωs sol mc).data_quality = (sim_quality inp).1 := rfl

theorem run_simulation_margin (inp : SimulationInput) (ωb ωs : ℕ → ℚ)
    (sol : Option (ℕ → ℚ)) (mc : MCStats) :
    (run_simulation inp ωb ωs sol mc).safety_margin = (sim_quality inp).2 := rfl

theorem run_simulation_hourly_getD (inp : SimulationInput) (ωb ωs : ℕ → ℚ)
    (sol : Option (ℕ → ℚ)) (mc : MCStats) (t : ℕ)
    (ht : t < inp.timestamps.length) :
    (run_simulation inp ωb ωs sol mc).hourly_data.getD t default
      = hourlyRow inp.tariff inp.timestamps
          (run_simulation inp ωb ωs sol mc).base_load_arr
          (run_simulation inp ωb ωs sol mc).ev_naive_arr
          (run_simulation inp ωb ωs sol mc).ev_lp_arr
          (run_simulation inp ωb ωs sol mc).spot_arr t :=
  getD_map_range inp.timestamps.length t _ ht

theorem run_simulation_hourly_length (inp : SimulationInput) (ωb ωs : ℕ → ℚ)
    (sol : Option (ℕ → ℚ)) (mc : MCStats) :
    (run_simulation inp ωb ωs sol mc).hourly_data.length
      = inp.timestamps.length := by
  show ((List.range inp.timestamps.length).map _).length = _
  rw [List.length_map, List.length_range]

/-! ## Claim C5 -/

/-- Claim C5 (confirmed): for every simulation run whose LP solver
honors its contract, and every in-grid hour `t` whose local hour lies
outside the wrap-aware charging window, both the naive and the LP EV
schedules are 0 at `t` — both as raw series and as the rounded
`hourly_data` fields `ev_kw_without` / `ev_kw_with`. -/
theorem C5_window_zero (inp : SimulationInput) (ωb ωs : ℕ → ℚ)
    (sol : Option (ℕ → ℚ)) (mc : MCStats)
    (hsol : SolverContract inp ωb sol) (t : ℕ)
    (ht : t < inp.timestamps.length)
    (hw : inWindowAt inp.fleet.avg_arrival_hour inp.fleet.avg_departure_hour
      inp.timestamps t = false) :
    (run_simulation inp ωb ωs sol mc).ev_naive_arr t = 0 ∧
    (run_simulation inp ωb ωs sol mc).ev_lp_arr t = 0 ∧
    ((run_simulation inp ωb ωs sol mc).hourly_data.getD t default).ev_kw_without
      = 0 ∧
    ((run_simulation inp ωb ωs sol mc).hourly_data.getD t default).ev_kw_with
      = 0 := by
  have hnaive : (run_simulation inp ωb ωs sol mc).ev_naive_arr t = 0 := by
    rw [run_simulation_ev_naive]
    exact naive_outside_window _ _ _ _ _ _ _ _ hw
  have hlp : (run_simulation inp ωb ωs sol mc).ev_lp_arr t = 0 := by
    rw [run_simulation_ev_lp]
    cases sol with
    | none =>
      show naive_ev_schedule inp.timestamps.length (sim_fleet_kw inp)
          (sim_kwh_needed inp) inp.fleet.avg_arrival_hour
          inp.fleet.avg_departure_hour (sim_spot inp ωs) inp.timestamps t = 0
      exact naive_outside_window _ _ _ _ _ _ _ _ hw
    | some x =>
      exact (hsol x rfl).2.1 t ht hw
  refine ⟨hnaive, hlp, ?_, ?_⟩
  · rw [run_simulation_hourly_getD inp ωb ωs sol mc t ht]
    show round2 ((run_simulation inp ωb ωs sol mc).ev_naive_arr t) = 0
    rw [hnaive, round2_zero]
  · rw [run_simulation_hourly_getD inp ωb ωs sol mc t ht]
    show round2 ((run_simulation inp ωb ωs sol mc).ev_lp_arr t) = 0
    rw [hlp, round2_zero]

/-- A one-hour request whose charging window `[1, 2)` excludes the
grid's only hour (local hour 0). -/
def inpWin : SimulationInput :=
  { period_start := 0, period_end := 0
    timestamps := [⟨0, 0, 1, 0⟩]
    subscription_kw := 50
    grid_area := "SE3"
    fleet := { vehicle_count := 1, charger_kw := 10, battery_kwh := 20,
               avg_soc_on_arrival := 0, avg_arrival_hour := 1,
               avg_departure_hour := 2 }
    tariff := tariffRound
    base_load_profile := some [100]
    spot_prices := some [100] }

/-- Witness for C5 at `inpWin`, hour 0 (outside the `[1,2)` window),
with a non-optimal solver answer. -/
theorem C5_window_zero_witness :
    SolverContract inpWin (fun _ => 0) none ∧ 0 < inpWin.timestamps.length ∧
    inWindowAt inpWin.fleet.avg_arrival_hour inpWin.fleet.avg_departure_hour
      inpWin.timestamps 0 = false ∧
    ((run_simulation inpWin (fun _ => 0) (fun _ => 0) none default).ev_naive_arr 0
        = 0 ∧
     (run_simulation inpWin (fun _ => 0) (fun _ => 0) none default).ev_lp_arr 0
        = 0 ∧
     ((run_simulation inpWin (fun _ => 0) (fun _ => 0) none
        default).hourly_data.getD 0 default).ev_kw_without = 0 ∧
     ((run_simulation inpWin (fun _ => 0) (fun _ => 0) none
        default).hourly_data.getD 0 default).ev_kw_with = 0) := by
  refine ⟨?_, ?_, ?_, ?_⟩
  · exact fun x h => nomatch h
  · decide
  · decide
  · exact C5_window_zero inpWin (fun _ => 0) (fun _ => 0) none default
      (fun x h => nomatch h) 0 (by decide) (by decide)

/-! ## Claim C10 -/

/-- Claim C10 (confirmed): when the average arrival hour equals the
average departure hour and `E_need > 0`, the charging window is empty,
so the naive schedule is identically zero, the LP is infeasible (a
contract-honoring solver cannot report `Optimal`, and on any
non-optimal status the code falls back to the all-zero naive
schedule), and `run_simulation` still assembles a full result — one
`hourly_data` row per grid hour. -/
theorem C10_empty_window (inp : SimulationInput) (ωb ωs : ℕ → ℚ)
    (sol : Option (ℕ → ℚ)) (mc : MCStats)
    (hsol : SolverContract inp ωb sol)
    (heq : inp.fleet.avg_arrival_hour = inp.fleet.avg_departure_hour)
    (hkwh : 0 < sim_kwh_needed inp) :
    (∀ t, (run_simulation inp ωb ωs sol mc).ev_naive_arr t = 0) ∧
    (∀ t, (run_simulation inp ωb ωs sol mc).ev_lp_arr t = 0) ∧
    (run_simulation inp ωb ωs sol mc).hourly_data.length
      = inp.timestamps.length := by
  have hnaive : ∀ t, (run_simulation inp ωb ωs sol mc).ev_naive_arr t = 0 := by
    intro t
    rw [run_simulation_ev_naive, ← heq]
    exact naive_empty_window _ _ _ _ _ _ t
  have hnone : sol = none := by
    cases hs : sol with
    | none => rfl
    | some x =>
      exfalso
      have hf := hsol x hs
      have hzero : ∀ t ∈ Finset.range inp.timestamps.length, x t = 0 := by
        intro t htm
        rw [Finset.mem_range] at htm
        refine hf.2.1 t htm ?_
        unfold inWindowAt
        rw [← heq, inChargeWindow_self]
      have hsum : (Finset.range inp.timestamps.length).sum x = 0 :=
        Finset.sum_eq_zero hzero
      have := hf.2.2.1
      rw [hsum] at this
      linarith
  refine ⟨hnaive, ?_, run_simulation_hourly_length inp ωb ωs sol mc⟩
  intro t
  rw [run_simulation_ev_lp, hnone]
  show naive_ev_schedule inp.timestamps.length (sim_fleet_kw inp)
      (sim_kwh_needed inp) inp.fleet.avg_arrival_hour
      inp.fleet.avg_departure_hour (sim_spot inp ωs) inp.timestamps t = 0
  rw [← heq]
  exact naive_empty_window _ _ _ _ _ _ t

/-- A request with `arrival = departure = 8` (empty window) and
`E_need = 20 > 0`. -/
def inpEmptyWin : SimulationInput :=
  { period_start := 0, period_end := 0
    timestamps := [⟨0, 0, 1, 0⟩]
    subscription_kw := 50
    grid_area := "SE3"
    fleet := { vehicle_count := 1, charger_kw := 10, battery_kwh := 20,
               avg_soc_on_arrival := 0, avg_arrival_hour := 8,
               avg_departure_hour := 8 }
    tariff := tariffRound
    base_load_profile := some [100]
    spot_prices := some [100] }

/-- Witness for C10 at `inpEmptyWin` with a non-optimal solver
answer. -/
theorem C10_empty_window_witness :
    SolverContract inpEmptyWin (fun _ => 0) none ∧
    inpEmptyWin.fleet.avg_arrival_hour
      = inpEmptyWin.fleet.avg_departure_hour ∧
    0 < sim_kwh_needed inpEmptyWin ∧
    ((∀ t, (run_simulation inpEmptyWin (fun _ => 0) (fun _ => 0) none
        default).ev_naive_arr t = 0) ∧
     (∀ t, (run_simulation inpEmptyWin (fun _ => 0) (fun _ => 0) none
        default).ev_lp_arr t = 0) ∧
     (run_simulation inpEmptyWin (fun _ => 0) (fun _ => 0) none
        default).hourly_data.length = inpEmptyWin.timestamps.length) := by
  refine ⟨?_, ?_, ?_, ?_⟩
  · exact fun x h => nomatch h
  · exact rfl
  · norm_num [sim_kwh_needed, inpEmptyWin]
  · exact C10_empty_window inpEmptyWin (fun _ => 0) (fun _ => 0) none default
      (fun x h => nomatch h) rfl
      (by norm_num [sim_kwh_needed, inpEmptyWin])

/-! ## Claim C1 -/

/-- A one-hour request with real series (`ok`, margin 0) whose energy
demand (20 kWh) exceeds the window capacity (10 kWh), so the LP is
infeasible and the code falls back to the naive schedule, which
breaches the subscription ceiling (110 kW against 50 kW). -/
def inpBreach : SimulationInput :=
  { period_start := 0, period_end := 0
    timestamps := [⟨0, 0, 1, 0⟩]
    subscription_kw := 50
    grid_area := "SE3"
    fleet := { vehicle_count := 1, charger_kw := 10, battery_kwh := 20,
               avg_soc_on_arrival := 0, avg_arrival_hour := 0,
               avg_departure_hour := 1 }
    tariff := tariffRound
    base_load_profile := some [100]
    spot_prices := some [100] }

/-- Claim C1 is false on the code as universally stated: when the LP
solver reports a non-optimal status (here the LP is genuinely
infeasible: 20 kWh demanded in a 10-kWh window), the naive fallback
schedule is returned and the subscription ceiling is breached:
`total_kw_with[0] = 110 > 50·(1−0) + ε`. -/
theorem C1_counterexample :
    SolverContract inpBreach (fun _ => 0) none ∧
    (run_simulation inpBreach (fun _ => 0) (fun _ => 0) none
      default).safety_margin = 0 ∧
    (run_simulation inpBreach (fun _ => 0) (fun _ => 0) none
      default).total_lp_arr 0 = 110 ∧
    ¬((run_simulation inpBreach (fun _ => 0) (fun _ => 0) none
        default).total_lp_arr 0
      ≤ inpBreach.subscription_kw *
        (1 - (run_simulation inpBreach (fun _ => 0) (fun _ => 0) none
          default).safety_margin) + 1/1000000) := by
  have hmargin : (run_simulation inpBreach (fun _ => 0) (fun _ => 0) none
      default).safety_margin = 0 := by
    rw [run_simulation_margin]
    rfl
  have hnaive : naive_ev_schedule 1 10 20 0 1
      (fun i => ([100] : List ℚ).getD i 0) [⟨0, 0, 1, 0⟩] 0 = 10 := by
    unfold naive_ev_schedule
    rw [show naive_window 0 1 [⟨0, 0, 1, 0⟩] = [0] from rfl]
    rw [show List.insertionSort
        (fun i j => (fun i => ([100] : List ℚ).getD i 0) i
          ≤ (fun i => ([100] : List ℚ).getD i 0) j) [0] = [0] from rfl]
    simp only [naiveAssign]
    rw [if_neg (by norm_num : ¬((20:ℚ) ≤ 0))]
    rw [min_eq_left (by norm_num : (10:ℚ) ≤ 20)]
    simp [List.lookup]
  have hfleet : sim_fleet_kw inpBreach = 10 := by
    norm_num [sim_fleet_kw, inpBreach]
  have hkwh : sim_kwh_needed inpBreach = 20 := by
    norm_num [sim_kwh_needed, inpBreach]
  have hlp : (run_simulation inpBreach (fun _ => 0) (fun _ => 0) none
      default).ev_lp_arr 0 = 10 := by
    rw [run_simulation_ev_lp]
    show naive_ev_schedule inpBreach.timestamps.length (sim_fleet_kw inpBreach)
        (sim_kwh_needed inpBreach) 0 1
        (sim_spot inpBreach (fun _ => 0)) inpBreach.timestamps 0 = 10
    rw [hfleet, hkwh]
    exact hnaive
  have hbase : (run_simulation inpBreach (fun _ => 0) (fun _ => 0) none
      default).base_load_arr 0 = 100 := rfl
  have htot : (run_simulation inpBreach (fun _ => 0) (fun _ => 0) none
      default).total_lp_arr 0 = 110 := by
    show (run_simulation inpBreach (fun _ => 0) (fun _ => 0) none
        default).base_load_arr 0 +
      (run_simulation inpBreach (fun _ => 0) (fun _ => 0) none
        default).ev_lp_arr 0 = 110
    rw [hbase, hlp]
    norm_num
  refine ⟨?_, ?_, ?_, ?_⟩
  · exact fun x h => nomatch h
  · exact hmargin
  · exact htot
  · rw [htot, hmargin, show inpBreach.subscription_kw = 50 from rfl]
    norm_num

/-- Claim C1 as amended: for every run, the total series satisfies
`total_kw_with[t] = base_kw[t] + ev_kw_with[t]` exactly (the reported
hourly value is the two-decimal rounding of that sum), and *whenever
the LP solver returns an optimal solution* the total respects the
effective ceiling `subscription_kw · (1 − safety_margin)`; when the LP
fails and the naive fallback is used the ceiling can be breached (see
the counterexample). -/
theorem C1_total_identity_ceiling (inp : SimulationInput) (ωb ωs : ℕ → ℚ)
    (sol : Option (ℕ → ℚ)) (mc : MCStats)
    (hsol : SolverContract inp ωb sol) (t : ℕ)
    (ht : t < inp.timestamps.length) :
    (run_simulation inp ωb ωs sol mc).total_lp_arr t
      = (run_simulation inp ωb ωs sol mc).base_load_arr t
        + (run_simulation inp ωb ωs sol mc).ev_lp_arr t ∧
    ((run_simulation inp ωb ωs sol mc).hourly_data.getD t default).total_kw_with
      = round2 ((run_simulation inp ωb ωs sol mc).base_load_arr t
        + (run_simulation inp ωb ωs sol mc).ev_lp_arr t) ∧
    (∀ x, sol = some x →
      (run_simulation inp ωb ωs sol mc).total_lp_arr t
        ≤ inp.subscription_kw *
          (1 - (run_simulation inp ωb ωs sol mc).safety_margin)) := by
  refine ⟨rfl, ?_, ?_⟩
  · rw [run_simulation_hourly_getD inp ωb ωs sol mc t ht]
    rfl
  · intro x hx
    have hceil := (hsol x hx).2.2.2 t ht
    rw [run_simulation_margin]
    show (run_simulation inp ωb ωs sol mc).base_load_arr t
        + (run_simulation inp ωb ωs sol mc).ev_lp_arr t
        ≤ inp.subscription_kw * (1 - (sim_quality inp).2)
    rw [run_simulation_base_load, run_simulation_ev_lp, hx]
    show sim_base_load inp ωb t + x t
        ≤ inp.subscription_kw * (1 - (sim_quality inp).2)
    exact hceil

/-- Witness for the amended C1 at `inpBreach`, hour 0, with a
non-optimal solver answer. -/
theorem C1_total_identity_ceiling_witness :
    SolverContract inpBreach (fun _ => 0) none ∧
    0 < inpBreach.timestamps.length ∧
    ((run_simulation inpBreach (fun _ => 0) (fun _ => 0) none
        default).total_lp_arr 0
      = (run_simulation inpBreach (fun _ => 0) (fun _ => 0) none
          default).base_load_arr 0
        + (run_simulation inpBreach (fun _ => 0) (fun _ => 0) none
          default).ev_lp_arr 0 ∧
    ((run_simulation inpBreach (fun _ => 0) (fun _ => 0) none
        default).hourly_data.getD 0 default).total_kw_with
      = round2 ((run_simulation inpBreach (fun _ => 0) (fun _ => 0) none
          default).base_load_arr 0
        + (run_simulation inpBreach (fun _ => 0) (fun _ => 0) none
          default).ev_lp_arr 0) ∧
    (∀ x, (none : Option (ℕ → ℚ)) = some x →
      (run_simulation inpBreach (fun _ => 0) (fun _ => 0) none
        default).total_lp_arr 0
        ≤ inpBreach.subscription_kw *
          (1 - (run_simulation inpBreach (fun _ => 0) (fun _ => 0) none
            default).safety_margin))) := by
  refine ⟨?_, ?_, ?_⟩
  · exact fun x h => nomatch h
  · decide
  · exact C1_total_identity_ceiling inpBreach (fun _ => 0) (fun _ => 0) none
      default (fun x h => nomatch h) 0 (by decide)

/-! ## Claim C4 -/

/-- The claim's notion of a "real" supplied series: the request
carries it and its length is exactly `n`. -/
def RealSeries (opt : Option (List ℚ)) (n : ℕ) : Prop :=
  ∃ l, opt = some l ∧ l.length = n

theorem real_series_true_iff (opt : Option (List ℚ)) (n : ℕ) (hn : 1 ≤ n) :
    real_series opt n = true ↔ RealSeries opt n := by
  cases opt with
  | none => simp [real_series, RealSeries]
  | some l =>
    simp only [real_series, Bool.and_eq_true, beq_iff_eq, RealSeries,
      Option.some.injEq]
    constructor
    · rintro ⟨_, hlen⟩
      exact ⟨l, rfl, hlen⟩
    · rintro ⟨l', hl', hlen⟩
      subst hl'
      refine ⟨?_, hlen⟩
      cases l with
      | nil => simp at hlen; omega
      | cons a t => simp

/-- Claim C4 (confirmed): with a nonempty time grid, the data-quality
tag and safety margin of a run are resolved exactly by the ladder —
both series real gives `ok`/0.00, exactly one real gives
`partial`/0.05, neither gives `fallback`/0.10. -/
theorem C4_quality_ladder (inp : SimulationInput) (ωb ωs : ℕ → ℚ)
    (sol : Option (ℕ → ℚ)) (mc : MCStats)
    (hn : 1 ≤ inp.timestamps.length) :
    ((RealSeries inp.spot_prices inp.timestamps.length ∧
        RealSeries inp.base_load_profile inp.timestamps.length) →
      (run_simulation inp ωb ωs sol mc).data_quality = DataQuality.ok ∧
      (run_simulation inp ωb ωs sol mc).safety_margin = 0) ∧
    (((RealSeries inp.spot_prices inp.timestamps.length ∧
        ¬RealSeries inp.base_load_profile inp.timestamps.length) ∨
      (¬RealSeries inp.spot_prices inp.timestamps.length ∧
        RealSeries inp.base_load_profile inp.timestamps.length)) →
      (run_simulation inp ωb ωs sol mc).data_quality
        = DataQuality.partialData ∧
      (run_simulation inp ωb ωs sol mc).safety_margin = 5/100) ∧
    ((¬RealSeries inp.spot_prices inp.timestamps.length ∧
        ¬RealSeries inp.base_load_profile inp.timestamps.length) →
      (run_simulation inp ωb ωs sol mc).data_quality = DataQuality.fallback ∧
      (run_simulation inp ωb ωs sol mc).safety_margin = 10/100) := by
  rw [run_simulation_quality, run_simulation_margin]
  have hs := real_series_true_iff inp.spot_prices _ hn
  have hb := real_series_true_iff inp.base_load_profile _ hn
  unfold sim_quality
  cases hsb : real_series inp.spot_prices inp.timestamps.length with
  | true =>
    have hS : RealSeries inp.spot_prices inp.timestamps.length := hs.mp hsb
    cases hbb : real_series inp.base_load_profile inp.timestamps.length with
    | true =>
      have hB : RealSeries inp.base_load_profile inp.timestamps.length :=
        hb.mp hbb
      refine ⟨fun _ => ⟨rfl, rfl⟩, fun h => ?_, fun h => ?_⟩
      · rcases h with ⟨_, hnb⟩ | ⟨hns, _⟩
        · exact absurd hB hnb
        · exact absurd hS hns
      · exact absurd hS h.1
    | false =>
      have hnB : ¬RealSeries inp.base_load_profile inp.timestamps.length :=
        fun hr => by rw [hb.mpr hr] at hbb; exact Bool.noConfusion hbb
      refine ⟨fun h => absurd h.2 hnB, fun _ => ⟨rfl, rfl⟩,
        fun h => absurd hS h.1⟩
  | false =>
    have hnS : ¬RealSeries inp.spot_prices inp.timestamps.length :=
      fun hr => by rw [hs.mpr hr] at hsb; exact Bool.noConfusion hsb
    cases hbb : real_series inp.base_load_profile inp.timestamps.length with
    | true =>
      have hB : RealSeries inp.base_load_profile inp.timestamps.length :=
        hb.mp hbb
      refine ⟨fun h => absurd h.1 hnS, fun _ => ⟨rfl, rfl⟩,
        fun h => absurd hB h.2⟩
    | false =>
      have hnB : ¬RealSeries inp.base_load_profile inp.timestamps.length :=
        fun hr => by rw [hb.mpr hr] at hbb; exact Bool.noConfusion hbb
      refine ⟨fun h => absurd h.1 hnS, fun h => ?_, fun _ => ⟨rfl, rfl⟩⟩
      rcases h with ⟨hS', _⟩ | ⟨_, hB'⟩
      · exact absurd hS' hnS
      · exact absurd hB' hnB

/-- Witness for C4 at `inpBreach` (both series real, one-hour grid). -/
theorem C4_quality_ladder_witness :
    1 ≤ inpBreach.timestamps.length ∧
    (((RealSeries inpBreach.spot_prices inpBreach.timestamps.length ∧
        RealSeries inpBreach.base_load_profile inpBreach.timestamps.length) →
      (run_simulation inpBreach (fun _ => 0) (fun _ => 0) none
        default).data_quality = DataQuality.ok ∧
      (run_simulation inpBreach (fun _ => 0) (fun _ => 0) none
        default).safety_margin = 0) ∧
    (((RealSeries inpBreach.spot_prices inpBreach.timestamps.length ∧
        ¬RealSeries inpBreach.base_load_profile inpBreach.timestamps.length) ∨
      (¬RealSeries inpBreach.spot_prices inpBreach.timestamps.length ∧
        RealSeries inpBreach.base_load_profile inpBreach.timestamps.length)) →
      (run_simulation inpBreach (fun _ => 0) (fun _ => 0) none
        default).data_quality = DataQuality.partialData ∧
      (run_simulation inpBreach (fun _ => 0) (fun _ => 0) none
        default).safety_margin = 5/100) ∧
    ((¬RealSeries inpBreach.spot_prices inpBreach.timestamps.length ∧
        ¬RealSeries inpBreach.base_load_profile inpBreach.timestamps.length) →
      (run_simulation inpBreach (fun _ => 0) (fun _ => 0) none
        default).data_quality = DataQuality.fallback ∧
      (run_simulation inpBreach (fun _ => 0) (fun _ => 0) none
        default).safety_margin = 10/100)) := by
  refine ⟨?_, ?_⟩
  · decide
  · exact C4_quality_ladder inpBreach (fun _ => 0) (fun _ => 0) none default
      (by decide)
